import Mathlib

/-!
Shallow embedding of the Kortex conversation engine (src/app.py).

The Flask endpoints `upload`, `chat`, `tutor` and `deep_dive` are modelled as
pure state-transition functions over an explicit database state.  External
collaborators (MD5 digest, text extraction, the text splitter, the embedding
and FAISS index build, the two LLM backends, the SerpAPI search client and the
JSON query parsing step) are supplied as an `Env` of pure functions, with the
two generation call shapes allowed to fail, mirroring exceptions raised by the
real backends.  A streamed HTTP response is modelled by the outcome of the
caller consuming the generator to exhaustion: the list of emitted chunks plus
whether the generator finished normally, finished by yielding its own error
text (an exception caught inside the generator body), or let an exception
escape to the WSGI layer.  Side effects on external services are counted in an
`Effects` record so that theorems can state that no extraction / chunking /
embedding / generation / search work was performed on a given path.
-/

namespace Kortex

/-- Raw uploaded bytes (`file.read()` in the source). -/
abbrev Bytes := List Nat

/-- Row of the `document_store` table: content digest key, pickled chunk list
and pickled serialized FAISS index (the blob is abstract to the core, modelled
as a `Nat` produced by the environment). -/
structure DocumentStore where
  doc_hash : String
  chunks : List String
  faiss_index : Nat
deriving DecidableEq

/-- One element of the pickled `chat_history` list.  Every entry the source
ever appends is a 3-tuple of strings: `("langchain", message, answer)` for the
plain / document Q&A channel, and `("gemini", role, text)` with
`role ∈ ("user", "model")` for the assisted channel.  `tag` is `item[0]`,
`item1` is `item[1]`, `item2` is `item[2]`; since each entry is a triple, the
source filter condition `len(item) == 3` is identically true here. -/
structure HistoryEntry where
  tag : String
  item1 : String
  item2 : String
deriving DecidableEq

/-- Row of the `conversations` table. -/
structure Conversation where
  id : Nat
  title : String
  created_at : Nat
  doc_hash : Option String
  chat_history : List HistoryEntry
  tutor_curriculum : Option String
deriving DecidableEq

/-- The whole database, plus a fresh-id source standing in for `uuid.uuid4()`
and a clock standing in for `func.now()`. -/
structure DBState where
  documents : List DocumentStore
  conversations : List Conversation
  nextId : Nat
  now : Nat
deriving DecidableEq

/-- Result of a non-streaming backend call (`llm.invoke`,
`model.generate_content`, or the retrieval chain): either the produced text or
a raised exception carrying a message. -/
inductive GenResult where
  | ok (text : String)
  | err (msg : String)
deriving DecidableEq

/-- Result of consuming a streaming backend call
(`model.generate_content(..., stream=True)`): either the full finite chunk
list, or the chunks produced before an exception with the exception message. -/
inductive GenStream where
  | ok (chunks : List String)
  | err (emitted : List String) (msg : String)
deriving DecidableEq

/-- Pure model of every external collaborator the four endpoints touch. -/
structure Env where
  /-- `hashlib.md5(file_content).hexdigest()`. -/
  md5 : Bytes → String
  /-- `get_document_text(filename, file_content)`; the source catches its own
  exceptions and returns the empty string, so it is total here. -/
  extract : String → Bytes → String
  /-- `get_text_chunks` (RecursiveCharacterTextSplitter). -/
  splitText : String → List String
  /-- Embedding plus FAISS build plus serialization
  (`get_vector_store` and `serialize_to_bytes`), returning the abstract index blob. -/
  buildIndex : List String → Nat
  /-- Non-streaming completion (`llm.invoke` / `model.generate_content`). -/
  complete : String → GenResult
  /-- The ConversationalRetrievalChain call: question and replayed
  `(question, answer)` memory pairs, producing `response.get("answer", ...)`. -/
  docChain : String → List (String × String) → GenResult
  /-- Streaming generation (`model.generate_content(..., stream=True)`). -/
  stream : String → GenStream
  /-- `re.search` for a JSON array followed by `json.loads`: `none` models the
  no-match / parse-failure case. -/
  parseQueries : String → Option (List String)
  /-- SerpAPI search: the ordered snippets of the organic results. -/
  search : String → List String
  /-- `SERPER_API_KEY` from the process environment. -/
  serperApiKey : Option String

/-- Counters of externally visible work done while serving one request. -/
structure Effects where
  extractions : Nat
  chunkings : Nat
  indexBuilds : Nat
  curriculumGens : Nat
  completions : Nat
  streamsStarted : Nat
  searches : Nat
  /-- Arguments of each retrieval-chain invocation:
  the question and the replayed memory pairs. -/
  chainCalls : List (String × List (String × String))
deriving DecidableEq

/-- The effects record of a request that performed no external work. -/
def noEffects : Effects := ⟨0, 0, 0, 0, 0, 0, 0, []⟩

/-- Observable result of one HTTP request, with streamed responses reported as
seen by a caller that consumed the whole body. -/
inductive ApiOut where
  /-- A 200 JSON body carrying a conversation id. -/
  | jsonOk (conversationId : Nat)
  /-- A non-streamed JSON error body with its HTTP status code. -/
  | jsonError (code : Nat) (msg : String)
  /-- Stream consumed to exhaustion with the generator finishing normally. -/
  | streamCompleted (chunks : List String)
  /-- Generator caught an exception itself and yielded `errText` as the final
  chunk after `chunks`. -/
  | streamErrorChunk (chunks : List String) (errText : String)
  /-- An exception escaped the generator: the stream breaks off after
  `chunks` and the WSGI layer sees the unhandled exception `errMsg`. -/
  | streamEscaped (chunks : List String) (errMsg : String)
deriving DecidableEq

/-- Full observable outcome of one request: response, database state once the
response body has been fully consumed, work counters, and (for `upload`) the
content digest the handler computed, exposed for the theorems. -/
structure Outcome where
  out : ApiOut
  state : DBState
  effects : Effects
  docHash : Option String
deriving DecidableEq

/-- Python truthiness of an optional string: `None` and `""` are falsy.  Used
for `if not conv.tutor_curriculum` and `if not SERPER_API_KEY`. -/
def pyFalsy : Option String → Bool
  | none => true
  | some s => s.isEmpty

/-- Python `str.strip()` with the default whitespace set. -/
def pyStrip (s : String) : String :=
  ⟨((s.data.dropWhile Char.isWhitespace).reverse.dropWhile Char.isWhitespace).reverse⟩

/-- The rejection test of the `upload` handler (source line 430):
`not raw_text or len(raw_text.strip()) < 50`. -/
def extractionTooShort (raw_text : String) : Bool :=
  raw_text.isEmpty || (pyStrip raw_text).length < 50

/-- Lookup of a `document_store` row by primary key
(`session.query(DocumentStore).filter_by(doc_hash=h).first()`). -/
def findDoc (docs : List DocumentStore) (h : String) : Option DocumentStore :=
  docs.find? (fun d => d.doc_hash == h)

/-- Lookup of a conversation by primary key
(`session.query(Conversation).filter_by(id=cid).first()`). -/
def findConv (convs : List Conversation) (cid : Nat) : Option Conversation :=
  convs.find? (fun c => c.id == cid)

/-- In-place update of the found conversation row, as done through the ORM
identity map before `session.commit()`. -/
def updateConv (s : DBState) (cid : Nat) (f : Conversation → Conversation) :
    DBState :=
  { s with conversations :=
      s.conversations.map (fun c => if c.id == cid then f c else c) }

/-- The row assignment `conv_to_update.chat_history = pickle.dumps(...)`:
overwrite the stored history with the freshly pickled list. -/
def setHist (newHist : List HistoryEntry) (c : Conversation) : Conversation :=
  { c with chat_history := newHist }

/-- The row assignment `conv.tutor_curriculum = curriculum_response.text`. -/
def setCurr (t : String) (c : Conversation) : Conversation :=
  { c with tutor_curriculum := some t }

/-- Request shape of `POST /upload`: the multipart file part (secure filename
and raw bytes; `none` models a missing part) and the `X-Conversation-ID`
header (`none` models an absent or empty header, both falsy in Python). -/
structure UploadRequest where
  file : Option (String × Bytes)
  conv_id_header : Option Nat
deriving DecidableEq

/-- Second half of the `upload` handler (source lines 439-452): resolve the
`X-Conversation-ID` header, rebind or create the conversation, commit, and
answer with the conversation id. -/
def uploadFinish (header : Option Nat) (filename doc_hash : String)
    (s : DBState) (eff : Effects) (dh : Option String) : Outcome :=
  let conv? := match header with
    | none => none
    | some cid => findConv s.conversations cid
  match conv? with
  | some conv =>
      let s2 := updateConv s conv.id
        (fun c => { c with doc_hash := some doc_hash, title := filename })
      ⟨.jsonOk conv.id, s2, eff, dh⟩
  | none =>
      let newConv : Conversation :=
        ⟨s.nextId, filename, s.now, some doc_hash, [], none⟩
      let s2 := { s with conversations := s.conversations ++ [newConv],
                         nextId := s.nextId + 1 }
      ⟨.jsonOk newConv.id, s2, eff, dh⟩

/-- The `POST /upload` handler (source lines 415-457).  Computes the MD5
digest of the bytes, takes the cache-hit branch when a `document_store` row
with that digest exists, otherwise extracts text (rejecting empty or
under-50-character text with a 400 before creating anything), chunks, embeds,
builds and serializes the index and adds the new row; then attaches the
document to the requested conversation or creates a fresh one. -/
def upload (env : Env) (req : UploadRequest) (s : DBState) : Outcome :=
  match req.file with
  | none => ⟨.jsonError 400 "No file part", s, noEffects, none⟩
  | some (filename, content) =>
    if filename.isEmpty then
      ⟨.jsonError 400 "No file part", s, noEffects, none⟩
    else
      let doc_hash := env.md5 content
      match findDoc s.documents doc_hash with
      | some _ =>
          uploadFinish req.conv_id_header filename doc_hash s noEffects
            (some doc_hash)
      | none =>
          let raw_text := env.extract filename content
          if extractionTooShort raw_text then
            ⟨.jsonError 400
              "This document contains no readable text or is too short to analyze.",
              s, { noEffects with extractions := 1 }, some doc_hash⟩
          else
            let text_chunks := env.splitText raw_text
            let new_doc : DocumentStore :=
              ⟨doc_hash, text_chunks, env.buildIndex text_chunks⟩
            let s1 := { s with documents := s.documents ++ [new_doc] }
            uploadFinish req.conv_id_header filename doc_hash s1
              { noEffects with extractions := 1, chunkings := 1,
                               indexBuilds := 1 }
              (some doc_hash)

/-- Request body of `POST /chat` and `POST /tutor`: `none` models an absent
JSON field (and for the conversation id also the falsy empty string). -/
structure ChatRequest where
  conversation_id : Option Nat
  message : Option String
deriving DecidableEq

/-- The memory replayed into the retrieval chain (source line 489):
`[(item[1], item[2]) for item in chat_history_list
   if len(item) == 3 and item[0] == "langchain"]`.
Every stored entry is a triple, so the length guard is identically true. -/
def langchainHistoryFormat (hist : List HistoryEntry) :
    List (String × String) :=
  (hist.filter (fun it => it.tag == "langchain")).map
    (fun it => (it.item1, it.item2))

/-- The `POST /chat` handler (source lines 459-505).  After field and
existence checks it serves either the plain branch (no bound document, one
`llm.invoke` call) or the document Q&A branch (retrieval chain over the
deserialized index with the replayed `langchain` memory).  In both branches
the generator body appends the `("langchain", message, answer)` triple and
commits only after the answer has been yielded; neither generator body has a
try/except, so a backend exception escapes the generator. -/
def chat (env : Env) (req : ChatRequest) (s : DBState) : Outcome :=
  match req.conversation_id, req.message with
  | some cid, some message =>
    if message.isEmpty then
      ⟨.jsonError 400 "Missing conversation_id or message", s, noEffects, none⟩
    else
      match findConv s.conversations cid with
      | none => ⟨.jsonError 404 "Conversation not found", s, noEffects, none⟩
      | some conv =>
        let chat_history_list := conv.chat_history
        match conv.doc_hash with
        | none =>
          match env.complete message with
          | .ok response =>
              let s2 := updateConv s cid (setHist
                (chat_history_list ++ [⟨"langchain", message, response⟩]))
              ⟨.streamCompleted [response], s2,
                { noEffects with completions := 1 }, none⟩
          | .err m =>
              ⟨.streamEscaped [] m, s,
                { noEffects with completions := 1 }, none⟩
        | some dh =>
          match findDoc s.documents dh with
          | none =>
              ⟨.jsonError 404 "Document data not found", s, noEffects, none⟩
          | some _doc_store =>
            let memory := langchainHistoryFormat chat_history_list
            match env.docChain message memory with
            | .ok answer =>
                let s2 := updateConv s cid (setHist
                  (chat_history_list ++ [⟨"langchain", message, answer⟩]))
                ⟨.streamCompleted [answer], s2,
                  { noEffects with chainCalls := [(message, memory)] }, none⟩
            | .err m =>
                ⟨.streamEscaped [] m, s,
                  { noEffects with chainCalls := [(message, memory)] }, none⟩
  | _, _ =>
      ⟨.jsonError 400 "Missing conversation_id or message", s, noEffects, none⟩

/-- Python `"\\n".join(...)` over the loaded chunks; in the source file the
separator is the literal two-character backslash-n sequence. -/
def joinChunks (chunks : List String) : String :=
  String.intercalate "\\n" chunks

/-- The curriculum prompt (source line 529) over the first 10000 characters of
the document context. -/
def curriculumPrompt (document_context : String) : String :=
  "Analyze the document and create a Socratic curriculum scaled to its length. Respond ONLY with the numbered list.\\n\\nDOCUMENT:\\n"
    ++ document_context.take 10000

/-- Python `repr` of a boolean, as interpolated by the tutor f-strings. -/
def pyBool : Bool → String
  | true => "True"
  | false => "False"

/-- Stand-in for the Python list repr interpolated at
`f"- **Conversation History:** \x7bgemini_history\x7d"`; only injectivity-free
formatting, never inspected by any theorem. -/
def historyRepr (hist : List HistoryEntry) : String :=
  String.intercalate ", "
    (hist.map (fun it => "(" ++ it.tag ++ ", " ++ it.item1 ++ ", "
      ++ it.item2 ++ ")"))

/-- The master tutor prompt (source lines 540-584): the prompt parts list
joined with the literal backslash-n separator, with the computed
first-message flag, the stored curriculum, the assisted-channel history and a
4000-character document snippet interpolated. -/
def tutorPrompt (is_first_tutor_message : Bool) (curriculum : String)
    (gemini_history : List HistoryEntry) (document_context : String)
    (message : String) : String :=
  String.intercalate "\\n"
    [ "## 1. CORE IDENTITY ##",
      "You are Kortex, an elite AI mentor. Your personality is a blend of a brilliant, charismatic professor and a patient, insightful partner. You are here to help the user think deeper and learn faster.",
      "",
      "## 2. CORE MISSION & LOGIC ##",
      "Your ultimate goal is to create a natural and intelligent conversation that guides the user through the lesson plan. To do this, you MUST follow this logic:",
      "",
      "IF the user\x27s message is the VERY FIRST ONE in the tutoring session (is_first_tutor_message = "
        ++ pyBool is_first_tutor_message ++ "), your primary task is to:",
      "1. Introduce yourself and the purpose of the lesson.",
      "2. Present the complete lesson plan you have created.",
      "3. Ask an engaging, open-ended Socratic question about the very first topic in the plan.",
      "",
      "OTHERWISE (for all subsequent messages), your task is to be a dynamic partner:",
      "1. Analyze the user\x27s latest message. Is it a response to your question or a new command?",
      "2. If it\x27s a response, continue the Socratic dialogue.",
      "3. If it\x27s a command (e.g., \"make a quiz\"), be a proactive assistant. If the command is ambiguous, ask clarifying questions. **When the user provides specific parameters (like \x2715 questions\x27), you MUST adhere to them precisely.** After gathering sufficient information, execute the command. It is better to provide a good result now than to ask endless questions.",
      "## 3. CONTEXT FOR YOUR MISSION ##",
      "- **is_first_tutor_message:** " ++ pyBool is_first_tutor_message,
      "- **Lesson Plan Roadmap:** " ++ curriculum,
      "- **Conversation History:** " ++ historyRepr gemini_history,
      "- **Document Snippet for Context:** " ++ document_context.take 4000,
      "",
      "## 4. CRITICAL RULES (NON-NEGOTIABLE) ##",
      "- **NO ROBOTIC INTROS:** NEVER start with \"Excellent!\", \"Great!\", \"Okay, so...\". Find a natural, conversational opening.",
      "- **PERFECT MCQ FORMATTING TEMPLATE:** When creating a quiz, you MUST format it EXACTLY like this, replacing the bracketed content. Do not add any text before or after this structure:",
      "  1. [Question 1 Text]",
      "     A. [Option A]",
      "     B. [Option B]",
      "     C. [Option C]",
      "     D. [Option D]",
      "",
      "  2. [Question 2 Text]",
      "     A. [Option A]",
      "     B. [Option B]",
      "     C. [Option C]",
      "     D. [Option D]",
      "",
      "## 5. THE USER\x27S LATEST MESSAGE ##",
      "\"" ++ message ++ "\"",
      "",
      "## 6. YOUR RESPONSE: ##" ]

/-- The `POST /tutor` handler (source lines 507-608).  After checks it lazily
generates and commits the curriculum when the stored field is Python-falsy
(NULL or empty), then streams the tutor answer; the generator body catches any
exception and yields the error text as a final chunk, and the two
assisted-channel history entries are appended and committed only once the
stream is exhausted. -/
def tutor (env : Env) (req : ChatRequest) (s : DBState) : Outcome :=
  match req.conversation_id, req.message with
  | some cid, some message =>
    if message.isEmpty then
      ⟨.jsonError 400 "Missing conversation_id or message", s, noEffects, none⟩
    else
      match findConv s.conversations cid with
      | none =>
          ⟨.jsonError 404 "Conversation or document not found", s, noEffects,
            none⟩
      | some conv =>
        match conv.doc_hash with
        | none =>
            ⟨.jsonError 404 "Conversation or document not found", s, noEffects,
              none⟩
        | some dh =>
          match findDoc s.documents dh with
          | none =>
              ⟨.jsonError 404 "Document content not found", s, noEffects, none⟩
          | some doc_store =>
            let document_context := joinChunks doc_store.chunks
            let chat_history_list := conv.chat_history
            let gemini_history :=
              chat_history_list.filter (fun it => it.tag == "gemini")
            let curGen := pyFalsy conv.tutor_curriculum
            match (if curGen then
                env.complete (curriculumPrompt document_context)
              else .ok (conv.tutor_curriculum.getD "")) with
            | .err m =>
                ⟨.jsonError 500 ("Analysis failed: " ++ m), s,
                  { noEffects with curriculumGens := 1, completions := 1 },
                  none⟩
            | .ok curriculum =>
              let s1 := if curGen then
                  updateConv s cid (setCurr curriculum)
                else s
              let effBase := if curGen then
                  { noEffects with curriculumGens := 1, completions := 1,
                                   streamsStarted := 1 }
                else { noEffects with streamsStarted := 1 }
              let is_first_tutor_message :=
                !(chat_history_list.any (fun it => it.tag == "gemini"))
              let master_prompt := tutorPrompt is_first_tutor_message
                curriculum gemini_history document_context message
              match env.stream master_prompt with
              | .ok chunks =>
                  let yielded := chunks.filter (fun c => !c.isEmpty)
                  let full_response := String.join yielded
                  let s2 := updateConv s1 cid (setHist
                    (chat_history_list ++
                      [⟨"gemini", "user", message⟩,
                       ⟨"gemini", "model", full_response⟩]))
                  ⟨.streamCompleted yielded, s2, effBase, none⟩
              | .err emitted m =>
                  let yielded := emitted.filter (fun c => !c.isEmpty)
                  ⟨.streamErrorChunk yielded
                      ("I\x27m sorry, a critical error occurred. Error: " ++ m),
                    s1, effBase, none⟩
  | _, _ =>
      ⟨.jsonError 400 "Missing conversation_id or message", s, noEffects, none⟩

/-- Request body of `POST /deep_dive`; the handler performs no missing-field
check, an absent id simply fails the conversation lookup. -/
structure DeepDiveRequest where
  conversation_id : Option Nat
deriving DecidableEq

/-- The query-generation prompt (source line 630). -/
def deepDiveQueryPrompt (document_context : String) : String :=
  "Analyze document. Generate JSON array of 3 expert Google queries for risks & trends. ONLY JSON array.\\n\\nDOC:"
    ++ document_context.take 4000

/-- The synthesis prompt (source line 652). -/
def deepDiveSynthesisPrompt (document_context web_context : String) : String :=
  "You are a world-class analyst. Synthesize original doc with live web data. Create a concise, actionable brief. Use Markdown.\\n\\nORIGINAL DOC:"
    ++ document_context.take 4000 ++ "\\n\\nLIVE WEB DATA:" ++ web_context
    ++ "\\n\\nBRIEF:"

/-- Progress chunks the deep-dive generator yields before the synthesis
stream: the gathering banner, one line per search query, and the synthesis
banner. -/
def deepDiveProgress (queries : List String) : List String :=
  "Gathering live intelligence from the web...<br>"
    :: (queries.map (fun q => "Searching for: \x27" ++ q ++ "\x27...<br>"))
    ++ ["<br>Synthesizing intelligence brief...<br><br>"]

/-- The web-context buffer (source lines 640-648): for each query, the
snippets of the first three organic results, each followed by a `<br>`. -/
def deepDiveWebContext (env : Env) (queries : List String) : String :=
  String.join (queries.map (fun q =>
    String.join (((env.search q).take 3).map (fun sn => sn ++ "<br>"))))

/-- The AttributeError message Python raises when `.page_content` is read
off one of the plain strings that `upload` stores as chunks. -/
def pageContentError : String :=
  "\x27str\x27 object has no attribute \x27page_content\x27"

/-- The list comprehension of source line 623:
`[chunk.page_content for chunk in pickle.loads(doc_store.chunks)]`.  Every
row this application stores holds plain strings (see `upload`), for which
the attribute access raises AttributeError, so the comprehension completes
only on the empty list (unlike `tutor`, line 522, which guards with an
`isinstance` check and joins the strings directly). -/
def pageContents : List String → Except String (List String)
  | [] => Except.ok []
  | _ :: _ => Except.error pageContentError

/-- The `POST /deep_dive` handler (source lines 610-677).  The SerpAPI key is
checked first of all; then conversation / document checks; then line 623
reads `.page_content` off every loaded chunk — on the plain-string chunks
this application stores, a non-empty chunk list raises AttributeError in the
view function itself, before any generator exists, and the outer `except`
rolls back and answers the structured 500 `Analysis failed` error.  If the
comprehension completes, the generator generates search queries, parses
them, searches the web with interleaved progress chunks, streams the
synthesis, and appends and commits the synthetic
`("Deep Dive Analysis", full_response)` turn only after the synthesis stream
is exhausted.  The generator body catches any exception and yields the error
text as a final chunk. -/
def deep_dive (env : Env) (req : DeepDiveRequest) (s : DBState) : Outcome :=
  if pyFalsy env.serperApiKey then
    ⟨.jsonError 500 "Serper API key not configured", s, noEffects, none⟩
  else
    let conv? := match req.conversation_id with
      | none => none
      | some cid => findConv s.conversations cid
    match conv? with
    | none =>
        ⟨.jsonError 400 "A document must be associated for a Deep Dive.", s,
          noEffects, none⟩
    | some conv =>
      match conv.doc_hash with
      | none =>
          ⟨.jsonError 400 "A document must be associated for a Deep Dive.", s,
            noEffects, none⟩
      | some dh =>
        match findDoc s.documents dh with
        | none =>
            ⟨.jsonError 404 "Document content not found.", s, noEffects, none⟩
        | some doc_store =>
          match pageContents doc_store.chunks with
          | .error e =>
              ⟨.jsonError 500 ("Analysis failed: " ++ e), s, noEffects, none⟩
          | .ok contents =>
          let document_context := joinChunks contents
          let chat_history_list := conv.chat_history
          match env.complete (deepDiveQueryPrompt document_context) with
          | .err m =>
              ⟨.streamErrorChunk []
                  ("A critical error occurred during Deep Dive. Error: " ++ m),
                s, { noEffects with completions := 1 }, none⟩
          | .ok response_text =>
            match env.parseQueries response_text with
            | none =>
                ⟨.streamErrorChunk []
                    ("A critical error occurred during Deep Dive. Error: "
                      ++ "AI failed to generate search queries."),
                  s, { noEffects with completions := 1 }, none⟩
            | some queries =>
              let progress := deepDiveProgress queries
              let web_context := deepDiveWebContext env queries
              let eff : Effects :=
                { noEffects with
                    completions := 1,
                    searches := queries.length,
                    streamsStarted := 1 }
              match env.stream
                  (deepDiveSynthesisPrompt document_context web_context) with
              | .ok chunks =>
                  let yielded := chunks.filter (fun c => !c.isEmpty)
                  let full_response := String.join yielded
                  let s2 := updateConv s conv.id (setHist
                    (chat_history_list ++
                      [⟨"gemini", "user", "Deep Dive Analysis"⟩,
                       ⟨"gemini", "model", full_response⟩]))
                  ⟨.streamCompleted (progress ++ yielded), s2, eff, none⟩
              | .err emitted m =>
                  let yielded := emitted.filter (fun c => !c.isEmpty)
                  ⟨.streamErrorChunk (progress ++ yielded)
                      ("A critical error occurred during Deep Dive. Error: "
                        ++ m),
                    s, eff, none⟩

/-- The chat history of the conversation `cid` as visible in state `s`
(the empty list when the conversation does not exist). -/
def histAt (s : DBState) (cid : Nat) : List HistoryEntry :=
  ((findConv s.conversations cid).map Conversation.chat_history).getD []

/-- True when the response is one of the two client-error categories (bad
request 400 / not found 404) of the upstream interface taxonomy. -/
def isClientError : ApiOut → Bool
  | .jsonError code _ => code == 400 || code == 404
  | _ => false

/-! Concrete instances used by witnesses and counterexamples. -/

/-- A cached document row with digest `"h"`. -/
def docA : DocumentStore := ⟨"h", ["alpha", "beta"], 7⟩

/-- A benign environment: every backend call succeeds. -/
def envA : Env where
  md5 := fun _ => "h"
  extract := fun _ _ => ""
  splitText := fun t => [t]
  buildIndex := fun _ => 7
  complete := fun _ => GenResult.ok "CURR"
  docChain := fun _ _ => GenResult.ok "ANS"
  stream := fun _ => GenStream.ok ["x", "y"]
  parseQueries := fun _ => some ["q1"]
  search := fun _ => ["sn1", "sn2"]
  serperApiKey := some "k"

/-- An environment whose generation backends all raise. -/
def envFail : Env := { envA with
  complete := fun _ => GenResult.err "boom",
  docChain := fun _ _ => GenResult.err "boom",
  stream := fun _ => GenStream.err [] "boom" }

/-- The environment with the search provider unconfigured. -/
def envNoKey : Env := { envA with serperApiKey := none }

/-- An environment whose extraction yields only 10 characters of text and
whose digest is not cached in the states below. -/
def envShort : Env := { envA with
  md5 := fun _ => "g",
  extract := fun _ _ => "0123456789" }

/-- A conversation with no bound document and empty history. -/
def convPlain : Conversation := ⟨1, "t", 0, none, [], none⟩

/-- A state holding only `convPlain` (and the cached document `docA`). -/
def statePlain : DBState := ⟨[docA], [convPlain], 2, 0⟩

/-- A conversation bound to `docA` whose history holds one assisted-channel
(role-tagged) turn pair and whose curriculum is a non-empty string. -/
def convDoc : Conversation :=
  ⟨1, "t", 0, some "h",
   [⟨"gemini", "user", "q0"⟩, ⟨"gemini", "model", "a0"⟩], some "PLAN"⟩

/-- A state holding `convDoc` and the cached document `docA`. -/
def stateDoc : DBState := ⟨[docA], [convDoc], 2, 0⟩

/-- A conversation bound to `docA` whose stored curriculum is the empty
string: non-null, but Python-falsy. -/
def convEmptyCurr : Conversation := ⟨1, "t", 0, some "h", [], some ""⟩

/-- A state holding `convEmptyCurr` and the cached document `docA`. -/
def stateEmptyCurr : DBState := ⟨[docA], [convEmptyCurr], 2, 0⟩

/-! Helper lemmas about the store lookups and updates. -/

theorem findConv_updateConv (s : DBState) (cid cid2 : Nat)
    (f : Conversation → Conversation) (hf : ∀ c, (f c).id = c.id) :
    findConv (updateConv s cid f).conversations cid2
      = (findConv s.conversations cid2).map
          (fun c => if c.id == cid then f c else c) := by
  unfold findConv updateConv
  rw [List.find?_map]
  have hp : ((fun c : Conversation => c.id == cid2) ∘
      (fun c => if c.id == cid then f c else c))
      = (fun c : Conversation => c.id == cid2) := by
    funext c
    by_cases h : (c.id == cid) = true
    · simp [Function.comp, h, hf c]
    · simp [Function.comp, h]
  rw [hp]

theorem findConv_id_eq {convs : List Conversation} {cid : Nat}
    {conv : Conversation} (hc : findConv convs cid = some conv) :
    conv.id = cid := by
  have h := @List.find?_some Conversation (fun c => c.id == cid) conv convs
    (by simpa [findConv] using hc)
  simpa using h

theorem findConv_updateConv_self (s : DBState) (cid : Nat)
    (f : Conversation → Conversation) (conv : Conversation)
    (hf : ∀ c, (f c).id = c.id)
    (hc : findConv s.conversations cid = some conv) :
    findConv (updateConv s cid f).conversations cid = some (f conv) := by
  rw [findConv_updateConv s cid cid f hf, hc]
  have hid : conv.id = cid := findConv_id_eq hc
  simp [hid]

theorem findConv_updateConv_other (s : DBState) (cid cid2 : Nat)
    (f : Conversation → Conversation) (hf : ∀ c, (f c).id = c.id)
    (hne : cid2 ≠ cid) :
    findConv (updateConv s cid f).conversations cid2
      = findConv s.conversations cid2 := by
  rw [findConv_updateConv s cid cid2 f hf]
  cases hc : findConv s.conversations cid2 with
  | none => rfl
  | some c =>
    have h2 : c.id = cid2 := findConv_id_eq hc
    have h3 : (c.id == cid) = false := by
      simp only [beq_eq_false_iff_ne, ne_eq]
      omega
    simp [h3]
    intro h
    exact absurd (h2.symm.trans h) hne

theorem histAt_updateConv_other (s : DBState) (cid cid2 : Nat)
    (f : Conversation → Conversation) (hf : ∀ c, (f c).id = c.id)
    (hne : cid2 ≠ cid) :
    histAt (updateConv s cid f) cid2 = histAt s cid2 := by
  unfold histAt
  rw [findConv_updateConv_other s cid cid2 f hf hne]

theorem histAt_updateConv_self (s : DBState) (cid : Nat)
    (f : Conversation → Conversation) (conv : Conversation)
    (hf : ∀ c, (f c).id = c.id)
    (hc : findConv s.conversations cid = some conv) :
    histAt (updateConv s cid f) cid = (f conv).chat_history := by
  unfold histAt
  rw [findConv_updateConv_self s cid f conv hf hc]
  rfl

theorem histAt_of_findConv (s : DBState) (cid : Nat) (conv : Conversation)
    (hc : findConv s.conversations cid = some conv) :
    histAt s cid = conv.chat_history := by
  unfold histAt
  rw [hc]
  rfl

theorem uploadFinish_spec (header : Option Nat) (filename doc_hash : String)
    (s : DBState) (eff : Effects) (dh : Option String) :
    (∃ cid, (uploadFinish header filename doc_hash s eff dh).out
      = ApiOut.jsonOk cid) ∧
    (uploadFinish header filename doc_hash s eff dh).state.documents
      = s.documents ∧
    (uploadFinish header filename doc_hash s eff dh).effects = eff ∧
    (uploadFinish header filename doc_hash s eff dh).docHash = dh := by
  cases header with
  | none =>
    refine ⟨⟨s.nextId, ?_⟩, ?_, ?_, ?_⟩ <;> rfl
  | some cid =>
    cases hc : findConv s.conversations cid with
    | none =>
      refine ⟨⟨s.nextId, ?_⟩, ?_, ?_, ?_⟩ <;> simp [uploadFinish, hc]
    | some conv =>
      refine ⟨⟨conv.id, ?_⟩, ?_, ?_, ?_⟩ <;> simp [uploadFinish, hc, updateConv]

theorem countP_key_eq_zero (docs : List DocumentStore) (k : String)
    (hfind : findDoc docs k = none) :
    docs.countP (fun x => x.doc_hash == k) = 0 := by
  rw [List.countP_eq_zero]
  intro a ha
  exact List.find?_eq_none.mp hfind a ha

theorem countP_key_eq_one (docs : List DocumentStore) (k : String)
    (d : DocumentStore) (hfind : findDoc docs k = some d)
    (hnd : (docs.map DocumentStore.doc_hash).Nodup) :
    docs.countP (fun x => x.doc_hash == k) = 1 := by
  induction docs with
  | nil => simp [findDoc] at hfind
  | cons a l ih =>
    by_cases hpa : (a.doc_hash == k) = true
    · rw [List.countP_cons_of_pos (fun x => x.doc_hash == k) l hpa]
      have hk : a.doc_hash = k := by simpa using hpa
      have hnotin : a.doc_hash ∉ l.map DocumentStore.doc_hash :=
        (List.nodup_cons.mp (by simpa using hnd)).1
      have hzero : l.countP (fun x => x.doc_hash == k) = 0 := by
        rw [List.countP_eq_zero]
        intro x hx hxk
        exact hnotin (by
          rw [hk]
          exact (by simpa using hxk) ▸ List.mem_map_of_mem _ hx)
      omega
    · rw [List.countP_cons_of_neg (fun x => x.doc_hash == k) l hpa]
      have hfind2 : findDoc l k = some d := by
        unfold findDoc at hfind ⊢
        rwa [@List.find?_cons_of_neg DocumentStore
          (fun x => x.doc_hash == k) a l hpa] at hfind
      exact ih hfind2 (List.nodup_cons.mp (by simpa using hnd)).2

theorem findDoc_append_new (docs : List DocumentStore) (k : String)
    (new_doc : DocumentStore) (hfind : findDoc docs k = none)
    (hk : (new_doc.doc_hash == k) = true) :
    findDoc (docs ++ [new_doc]) k = some new_doc := by
  unfold findDoc at *
  rw [List.find?_append, hfind]
  simp [List.find?, hk]

theorem findConv_append_new (convs : List Conversation)
    (newConv : Conversation) (hfresh : ∀ c ∈ convs, c.id ≠ newConv.id) :
    findConv (convs ++ [newConv]) newConv.id = some newConv := by
  unfold findConv
  rw [List.find?_append]
  have hnone : convs.find? (fun c => c.id == newConv.id) = none := by
    rw [List.find?_eq_none]
    intro x hx
    simpa using hfresh x hx
  rw [hnone]
  simp [List.find?]

theorem uploadFinish_attach (filename doc_hash : String) (s : DBState)
    (eff : Effects) (dh : Option String) (cid : Nat) (conv : Conversation)
    (hconv : findConv s.conversations cid = some conv) :
    uploadFinish (some cid) filename doc_hash s eff dh =
      ⟨ApiOut.jsonOk conv.id,
       updateConv s conv.id (fun c =>
         { c with doc_hash := some doc_hash, title := filename }), eff,
       dh⟩ := by
  simp [uploadFinish, hconv]

theorem uploadFinish_create (header : Option Nat) (filename doc_hash : String)
    (s : DBState) (eff : Effects) (dh : Option String)
    (hhdr : header = none ∨ ∃ cid, header = some cid ∧
      findConv s.conversations cid = none) :
    uploadFinish header filename doc_hash s eff dh =
      ⟨ApiOut.jsonOk s.nextId,
       { s with
           conversations := s.conversations ++
             [⟨s.nextId, filename, s.now, some doc_hash, [], none⟩],
           nextId := s.nextId + 1 },
       eff, dh⟩ := by
  rcases hhdr with h | ⟨cid, h, hfc⟩
  · subst h
    rfl
  · subst h
    simp [uploadFinish, hfc]

theorem upload_hit (env : Env) (hdr : Option Nat) (filename : String)
    (content : Bytes) (s : DBState) (d : DocumentStore)
    (hname : filename.isEmpty = false)
    (hfd : findDoc s.documents (env.md5 content) = some d) :
    upload env ⟨some (filename, content), hdr⟩ s =
      uploadFinish hdr filename (env.md5 content) s noEffects
        (some (env.md5 content)) := by
  simp only [upload, hname, Bool.false_eq_true, if_false, hfd]

theorem upload_miss (env : Env) (hdr : Option Nat) (filename : String)
    (content : Bytes) (s : DBState)
    (hname : filename.isEmpty = false)
    (hfd : findDoc s.documents (env.md5 content) = none)
    (hex : extractionTooShort (env.extract filename content) = false) :
    upload env ⟨some (filename, content), hdr⟩ s =
      uploadFinish hdr filename (env.md5 content)
        { s with documents := s.documents ++
            [⟨env.md5 content, env.splitText (env.extract filename content),
              env.buildIndex
                (env.splitText (env.extract filename content))⟩] }
        { noEffects with extractions := 1, chunkings := 1, indexBuilds := 1 }
        (some (env.md5 content)) := by
  simp only [upload, hname, Bool.false_eq_true, if_false, hfd, hex]

theorem upload_short (env : Env) (hdr : Option Nat) (filename : String)
    (content : Bytes) (s : DBState)
    (hname : filename.isEmpty = false)
    (hfd : findDoc s.documents (env.md5 content) = none)
    (hex : extractionTooShort (env.extract filename content) = true) :
    upload env ⟨some (filename, content), hdr⟩ s =
      ⟨ApiOut.jsonError 400
        "This document contains no readable text or is too short to analyze.",
        s, { noEffects with extractions := 1 }, some (env.md5 content)⟩ := by
  simp only [upload, hname, Bool.false_eq_true, if_false, hfd, hex, if_true]

/-! The claims. -/

/-- C8: for every deep-dive request made while the web-search provider is
unconfigured (the `SERPER_API_KEY` is absent or empty, both Python-falsy),
the operation fails with the SearchUnavailable error
(`"Serper API key not configured"`, status 500) before any generation call
and before any search call (all work counters are zero), and the state —
in particular every conversation history — is unchanged. -/
theorem kortex_C8 (env : Env) (req : DeepDiveRequest) (s : DBState)
    (h : pyFalsy env.serperApiKey = true) :
    deep_dive env req s =
      ⟨ApiOut.jsonError 500 "Serper API key not configured", s, noEffects,
        none⟩ := by
  unfold deep_dive
  rw [h]
  rfl

/-- C5: for every upload whose extracted text is absent or shorter than the
50-character minimum after stripping whitespace, and whose digest is not
already cached, ingestion fails with the bad-request ExtractionEmpty error
and the state is unchanged: no Document Record, no chunks, no embeddings and
no index are created (only the one extraction call was performed). -/
theorem kortex_C5 (env : Env) (req : UploadRequest) (s : DBState)
    (filename : String) (content : Bytes)
    (hfile : req.file = some (filename, content))
    (hname : filename.isEmpty = false)
    (hmiss : findDoc s.documents (env.md5 content) = none)
    (hshort : extractionTooShort (env.extract filename content) = true) :
    upload env req s =
      ⟨ApiOut.jsonError 400
        "This document contains no readable text or is too short to analyze.",
        s, { noEffects with extractions := 1 }, some (env.md5 content)⟩ := by
  obtain ⟨f, hdr⟩ := req
  simp only at hfile
  subst hfile
  exact upload_short env hdr filename content s hname hmiss hshort

/-- C9: attaching a document via a successful upload to an existing
conversation (the `X-Conversation-ID` header names a stored conversation)
modifies only that conversation row fields `doc_hash` and `title` — the record
update below fixes `id`, `created_at`, `chat_history` and `tutor_curriculum`
to their old values — and leaves every other conversation untouched; no
hypothesis constrains the previously bound document, so this holds also when
the new document differs from an old one. -/
theorem kortex_C9 (env : Env) (req : UploadRequest) (s : DBState)
    (filename : String) (content : Bytes) (cid : Nat) (conv : Conversation)
    (hfile : req.file = some (filename, content))
    (hhdr : req.conv_id_header = some cid)
    (hconv : findConv s.conversations cid = some conv)
    (cidR : Nat) (hok : (upload env req s).out = ApiOut.jsonOk cidR) :
    cidR = conv.id ∧
    findConv (upload env req s).state.conversations cid =
      some { conv with doc_hash := some (env.md5 content),
                       title := filename } ∧
    ∀ cid2, cid2 ≠ cid →
      findConv (upload env req s).state.conversations cid2 =
        findConv s.conversations cid2 := by
  obtain ⟨f0, hdr⟩ := req
  simp only at hfile hhdr
  subst hfile
  subst hhdr
  have hf : ∀ c : Conversation,
      (({ c with doc_hash := some (env.md5 content), title := filename } :
        Conversation)).id = c.id := fun c => rfl
  have hcid : conv.id = cid := findConv_id_eq hconv
  by_cases hname : filename.isEmpty = true
  · exfalso
    simp [upload, hname] at hok
  · have hname2 : filename.isEmpty = false := by simpa using hname
    cases hfd : findDoc s.documents (env.md5 content) with
    | some d =>
      rw [upload_hit env (some cid) filename content s d hname2 hfd,
        uploadFinish_attach filename (env.md5 content) s noEffects
          (some (env.md5 content)) cid conv hconv] at hok ⊢
      refine ⟨by simpa using hok.symm, ?_, ?_⟩
      · rw [← hcid] at hconv ⊢
        exact findConv_updateConv_self s conv.id _ conv hf hconv
      · intro cid2 hne
        rw [← hcid] at hne
        exact findConv_updateConv_other s conv.id cid2 _ hf hne
    | none =>
      cases hex : extractionTooShort (env.extract filename content) with
      | true =>
        exfalso
        rw [upload_short env (some cid) filename content s hname2 hfd hex]
          at hok
        simp at hok
      | false =>
        rw [upload_miss env (some cid) filename content s hname2 hfd hex,
          uploadFinish_attach filename (env.md5 content)
            { s with documents := s.documents ++
                [⟨env.md5 content,
                  env.splitText (env.extract filename content),
                  env.buildIndex
                    (env.splitText (env.extract filename content))⟩] }
            { noEffects with extractions := 1, chunkings := 1,
                             indexBuilds := 1 }
            (some (env.md5 content)) cid conv hconv] at hok ⊢
        refine ⟨by simpa using hok.symm, ?_, ?_⟩
        · rw [← hcid] at hconv ⊢
          exact findConv_updateConv_self _ conv.id _ conv hf hconv
        · intro cid2 hne
          rw [← hcid] at hne
          exact findConv_updateConv_other _ conv.id cid2 _ hf hne

/-- C10: an upload whose conversation-id header is absent or names no stored
conversation does not fail with not-found: provided ingestion itself goes
through (cache hit, or adequate extracted text), the handler creates a fresh
conversation titled with the uploaded filename, bound to the uploaded
digest of the document, with empty history and null curriculum, and returns that
id of the new conversation. -/
theorem kortex_C10 (env : Env) (req : UploadRequest) (s : DBState)
    (filename : String) (content : Bytes)
    (hfile : req.file = some (filename, content))
    (hname : filename.isEmpty = false)
    (hhdr : req.conv_id_header = none ∨ ∃ cid,
      req.conv_id_header = some cid ∧ findConv s.conversations cid = none)
    (hfresh : ∀ c ∈ s.conversations, c.id ≠ s.nextId)
    (hingest : (∃ d, findDoc s.documents (env.md5 content) = some d) ∨
      extractionTooShort (env.extract filename content) = false) :
    (upload env req s).out = ApiOut.jsonOk s.nextId ∧
    findConv (upload env req s).state.conversations s.nextId =
      some ⟨s.nextId, filename, s.now, some (env.md5 content), [], none⟩ := by
  obtain ⟨f0, hdr⟩ := req
  simp only at hfile hhdr
  subst hfile
  cases hfd : findDoc s.documents (env.md5 content) with
  | some d =>
    rw [upload_hit env hdr filename content s d hname hfd,
      uploadFinish_create hdr filename (env.md5 content) s noEffects
        (some (env.md5 content)) hhdr]
    exact ⟨rfl, findConv_append_new s.conversations _ hfresh⟩
  | none =>
    have hex : extractionTooShort (env.extract filename content) = false := by
      rcases hingest with ⟨d, hd⟩ | hex
      · rw [hfd] at hd
        cases hd
      · exact hex
    rw [upload_miss env hdr filename content s hname hfd hex,
      uploadFinish_create hdr filename (env.md5 content)
        { s with documents := s.documents ++
            [⟨env.md5 content, env.splitText (env.extract filename content),
              env.buildIndex
                (env.splitText (env.extract filename content))⟩] }
        { noEffects with extractions := 1, chunkings := 1, indexBuilds := 1 }
        (some (env.md5 content)) hhdr]
    exact ⟨rfl, findConv_append_new s.conversations _ hfresh⟩

/-- C1: ingestion is idempotent on content.  If a first upload of some bytes
succeeds, then a second upload of the same bytes hits the cache: it performs
no extraction, no chunking and no embedding or index build, it computes the
same content digest as the first upload, it leaves the document store exactly
as the first upload left it, and (given the primary-key invariant that stored
digests are distinct) the store holds exactly one Document Record keyed by
that digest. -/
theorem kortex_C1 (env : Env) (req : UploadRequest) (s : DBState)
    (filename : String) (content : Bytes)
    (hfile : req.file = some (filename, content))
    (hkeys : (s.documents.map DocumentStore.doc_hash).Nodup)
    (cid1 : Nat) (h1 : (upload env req s).out = ApiOut.jsonOk cid1) :
    (∃ cid2, (upload env req (upload env req s).state).out
      = ApiOut.jsonOk cid2) ∧
    (upload env req (upload env req s).state).effects.extractions = 0 ∧
    (upload env req (upload env req s).state).effects.chunkings = 0 ∧
    (upload env req (upload env req s).state).effects.indexBuilds = 0 ∧
    (upload env req (upload env req s).state).docHash
      = (upload env req s).docHash ∧
    (upload env req s).docHash = some (env.md5 content) ∧
    (upload env req (upload env req s).state).state.documents
      = (upload env req s).state.documents ∧
    (upload env req s).state.documents.countP
      (fun d => d.doc_hash == env.md5 content) = 1 := by
  obtain ⟨f0, hdr⟩ := req
  simp only at hfile
  subst hfile
  by_cases hname : filename.isEmpty = true
  · exfalso
    simp [upload, hname] at h1
  · have hname2 : filename.isEmpty = false := by simpa using hname
    cases hfd : findDoc s.documents (env.md5 content) with
    | some d =>
      have e1 := upload_hit env hdr filename content s d hname2 hfd
      obtain ⟨⟨cida, houta⟩, hdocs, heff, hdh⟩ :=
        uploadFinish_spec hdr filename (env.md5 content) s noEffects
          (some (env.md5 content))
      have hfd2 : findDoc
          (upload env ⟨some (filename, content), hdr⟩ s).state.documents
          (env.md5 content) = some d := by
        rw [e1, hdocs]
        exact hfd
      have e2 := upload_hit env hdr filename content
        (upload env ⟨some (filename, content), hdr⟩ s).state d hname2 hfd2
      obtain ⟨⟨cidb, houtb⟩, hdocsb, heffb, hdhb⟩ :=
        uploadFinish_spec hdr filename (env.md5 content)
          (upload env ⟨some (filename, content), hdr⟩ s).state noEffects
          (some (env.md5 content))
      rw [e2]
      refine ⟨⟨cidb, houtb⟩, ?_, ?_, ?_, ?_, ?_, ?_, ?_⟩
      · rw [heffb]
        rfl
      · rw [heffb]
        rfl
      · rw [heffb]
        rfl
      · rw [hdhb, e1, hdh]
      · rw [e1, hdh]
      · rw [hdocsb]
      · rw [e1, hdocs]
        exact countP_key_eq_one s.documents (env.md5 content) d hfd hkeys
    | none =>
      cases hex : extractionTooShort (env.extract filename content) with
      | true =>
        exfalso
        rw [upload_short env hdr filename content s hname2 hfd hex] at h1
        simp at h1
      | false =>
        have e1 := upload_miss env hdr filename content s hname2 hfd hex
        obtain ⟨⟨cida, houta⟩, hdocs, heff, hdh⟩ :=
          uploadFinish_spec hdr filename (env.md5 content)
            { s with documents := s.documents ++
                [⟨env.md5 content,
                  env.splitText (env.extract filename content),
                  env.buildIndex
                    (env.splitText (env.extract filename content))⟩] }
            { noEffects with extractions := 1, chunkings := 1,
                             indexBuilds := 1 }
            (some (env.md5 content))
        have hnew : findDoc (s.documents ++
            [⟨env.md5 content, env.splitText (env.extract filename content),
              env.buildIndex (env.splitText (env.extract filename content))⟩])
            (env.md5 content) = some
            ⟨env.md5 content, env.splitText (env.extract filename content),
              env.buildIndex
                (env.splitText (env.extract filename content))⟩ :=
          findDoc_append_new _ _ _ hfd (by simp)
        have hfd2 : findDoc
            (upload env ⟨some (filename, content), hdr⟩ s).state.documents
            (env.md5 content) = some
            ⟨env.md5 content, env.splitText (env.extract filename content),
              env.buildIndex
                (env.splitText (env.extract filename content))⟩ := by
          rw [e1, hdocs]
          exact hnew
        have e2 := upload_hit env hdr filename content
          (upload env ⟨some (filename, content), hdr⟩ s).state _ hname2 hfd2
        obtain ⟨⟨cidb, houtb⟩, hdocsb, heffb, hdhb⟩ :=
          uploadFinish_spec hdr filename (env.md5 content)
            (upload env ⟨some (filename, content), hdr⟩ s).state noEffects
            (some (env.md5 content))
        rw [e2]
        refine ⟨⟨cidb, houtb⟩, ?_, ?_, ?_, ?_, ?_, ?_, ?_⟩
        · rw [heffb]
          rfl
        · rw [heffb]
          rfl
        · rw [heffb]
          rfl
        · rw [hdhb, e1, hdh]
        · rw [e1, hdh]
        · rw [hdocsb]
        · rw [e1, hdocs]
          rw [List.countP_append]
          rw [countP_key_eq_zero s.documents (env.md5 content) hfd]
          simp

/-! Branch equations for the three streaming endpoints. -/

theorem join_single (a : String) : String.join [a] = a := by
  simp [String.join]

theorem histAt_setHist_self (s : DBState) (cid : Nat)
    (newHist : List HistoryEntry) (conv : Conversation)
    (hc : findConv s.conversations cid = some conv) :
    histAt (updateConv s cid (setHist newHist)) cid = newHist := by
  rw [histAt_updateConv_self s cid (setHist newHist) conv (fun _ => rfl) hc]
  rfl

theorem histAt_setHist_other (s : DBState) (cid cid2 : Nat)
    (newHist : List HistoryEntry) (hne : cid2 ≠ cid) :
    histAt (updateConv s cid (setHist newHist)) cid2 = histAt s cid2 :=
  histAt_updateConv_other s cid cid2 (setHist newHist) (fun _ => rfl) hne

theorem histAt_setCurr (s : DBState) (cid : Nat) (t : String) (cid2 : Nat) :
    histAt (updateConv s cid (setCurr t)) cid2 = histAt s cid2 := by
  unfold histAt
  rw [findConv_updateConv s cid cid2 (setCurr t) (fun c => rfl)]
  cases findConv s.conversations cid2 with
  | none => rfl
  | some c =>
    by_cases h : c.id = cid
    · simp [h, setCurr]
    · simp [h]

theorem findConv_setCurr_self (s : DBState) (cid : Nat) (t : String)
    (conv : Conversation) (hc : findConv s.conversations cid = some conv) :
    findConv (updateConv s cid (setCurr t)).conversations cid
      = some (setCurr t conv) :=
  findConv_updateConv_self s cid (setCurr t) conv (fun _ => rfl) hc

theorem chat_eq_plain (env : Env) (s : DBState) (cid : Nat) (msg : String)
    (conv : Conversation)
    (hmsg : msg.isEmpty = false)
    (hconv : findConv s.conversations cid = some conv)
    (hdh : conv.doc_hash = none) :
    chat env ⟨some cid, some msg⟩ s =
      match env.complete msg with
      | .ok response =>
          ⟨.streamCompleted [response],
           updateConv s cid (setHist
             (conv.chat_history ++ [⟨"langchain", msg, response⟩])),
           { noEffects with completions := 1 }, none⟩
      | .err m =>
          ⟨.streamEscaped [] m, s,
           { noEffects with completions := 1 }, none⟩ := by
  simp only [chat, hmsg, Bool.false_eq_true, if_false, hconv, hdh]

theorem chat_eq_doc (env : Env) (s : DBState) (cid : Nat) (msg : String)
    (conv : Conversation) (dh : String) (ds : DocumentStore)
    (hmsg : msg.isEmpty = false)
    (hconv : findConv s.conversations cid = some conv)
    (hdh : conv.doc_hash = some dh)
    (hds : findDoc s.documents dh = some ds) :
    chat env ⟨some cid, some msg⟩ s =
      match env.docChain msg (langchainHistoryFormat conv.chat_history) with
      | .ok answer =>
          ⟨.streamCompleted [answer],
           updateConv s cid (setHist
             (conv.chat_history ++ [⟨"langchain", msg, answer⟩])),
           { noEffects with chainCalls :=
             [(msg, langchainHistoryFormat conv.chat_history)] }, none⟩
      | .err m =>
          ⟨.streamEscaped [] m, s,
           { noEffects with chainCalls :=
             [(msg, langchainHistoryFormat conv.chat_history)] }, none⟩ := by
  simp only [chat, hmsg, Bool.false_eq_true, if_false, hconv, hdh, hds]

theorem tutor_eq_nodoc (env : Env) (s : DBState) (cid : Nat) (msg : String)
    (conv : Conversation)
    (hmsg : msg.isEmpty = false)
    (hconv : findConv s.conversations cid = some conv)
    (hdh : conv.doc_hash = none) :
    tutor env ⟨some cid, some msg⟩ s =
      ⟨ApiOut.jsonError 404 "Conversation or document not found", s,
        noEffects, none⟩ := by
  simp only [tutor, hmsg, Bool.false_eq_true, if_false, hconv, hdh]

theorem tutor_eq_nogen (env : Env) (s : DBState) (cid : Nat) (msg : String)
    (conv : Conversation) (dh : String) (ds : DocumentStore)
    (hmsg : msg.isEmpty = false)
    (hconv : findConv s.conversations cid = some conv)
    (hdh : conv.doc_hash = some dh)
    (hds : findDoc s.documents dh = some ds)
    (hfalsy : pyFalsy conv.tutor_curriculum = false) :
    tutor env ⟨some cid, some msg⟩ s =
      match env.stream (tutorPrompt
          (!(conv.chat_history.any (fun it => it.tag == "gemini")))
          (conv.tutor_curriculum.getD "")
          (conv.chat_history.filter (fun it => it.tag == "gemini"))
          (joinChunks ds.chunks) msg) with
      | .ok chunks =>
          ⟨.streamCompleted (chunks.filter (fun c => !c.isEmpty)),
           updateConv s cid (setHist
             (conv.chat_history ++
               [⟨"gemini", "user", msg⟩,
                ⟨"gemini", "model",
                  String.join (chunks.filter (fun c => !c.isEmpty))⟩])),
           { noEffects with streamsStarted := 1 }, none⟩
      | .err emitted m =>
          ⟨.streamErrorChunk (emitted.filter (fun c => !c.isEmpty))
             ("I\x27m sorry, a critical error occurred. Error: " ++ m),
           s, { noEffects with streamsStarted := 1 }, none⟩ := by
  simp only [tutor, hmsg, Bool.false_eq_true, if_false, hconv, hdh, hds,
    hfalsy, if_true]

theorem tutor_eq_gen_err (env : Env) (s : DBState) (cid : Nat) (msg : String)
    (conv : Conversation) (dh : String) (ds : DocumentStore) (m : String)
    (hmsg : msg.isEmpty = false)
    (hconv : findConv s.conversations cid = some conv)
    (hdh : conv.doc_hash = some dh)
    (hds : findDoc s.documents dh = some ds)
    (hfalsy : pyFalsy conv.tutor_curriculum = true)
    (hcomp : env.complete (curriculumPrompt (joinChunks ds.chunks))
      = .err m) :
    tutor env ⟨some cid, some msg⟩ s =
      ⟨ApiOut.jsonError 500 ("Analysis failed: " ++ m), s,
        { noEffects with curriculumGens := 1, completions := 1 }, none⟩ := by
  simp only [tutor, hmsg, Bool.false_eq_true, if_false, hconv, hdh, hds,
    hfalsy, if_true, hcomp]

theorem tutor_eq_gen_ok (env : Env) (s : DBState) (cid : Nat) (msg : String)
    (conv : Conversation) (dh : String) (ds : DocumentStore)
    (currText : String)
    (hmsg : msg.isEmpty = false)
    (hconv : findConv s.conversations cid = some conv)
    (hdh : conv.doc_hash = some dh)
    (hds : findDoc s.documents dh = some ds)
    (hfalsy : pyFalsy conv.tutor_curriculum = true)
    (hcomp : env.complete (curriculumPrompt (joinChunks ds.chunks))
      = .ok currText) :
    tutor env ⟨some cid, some msg⟩ s =
      match env.stream (tutorPrompt
          (!(conv.chat_history.any (fun it => it.tag == "gemini")))
          currText
          (conv.chat_history.filter (fun it => it.tag == "gemini"))
          (joinChunks ds.chunks) msg) with
      | .ok chunks =>
          ⟨.streamCompleted (chunks.filter (fun c => !c.isEmpty)),
           updateConv (updateConv s cid (setCurr currText)) cid (setHist
             (conv.chat_history ++
               [⟨"gemini", "user", msg⟩,
                ⟨"gemini", "model",
                  String.join (chunks.filter (fun c => !c.isEmpty))⟩])),
           { noEffects with curriculumGens := 1, completions := 1,
                            streamsStarted := 1 }, none⟩
      | .err emitted m =>
          ⟨.streamErrorChunk (emitted.filter (fun c => !c.isEmpty))
             ("I\x27m sorry, a critical error occurred. Error: " ++ m),
           updateConv s cid (setCurr currText),
           { noEffects with curriculumGens := 1, completions := 1,
                            streamsStarted := 1 }, none⟩ := by
  simp only [tutor, hmsg, Bool.false_eq_true, if_false, hconv, hdh, hds,
    hfalsy, if_true, hcomp]

theorem deep_dive_eq_nodoc (env : Env) (s : DBState) (cid : Nat)
    (conv : Conversation)
    (hkey : pyFalsy env.serperApiKey = false)
    (hconv : findConv s.conversations cid = some conv)
    (hdh : conv.doc_hash = none) :
    deep_dive env ⟨some cid⟩ s =
      ⟨ApiOut.jsonError 400 "A document must be associated for a Deep Dive.",
        s, noEffects, none⟩ := by
  simp only [deep_dive, hkey, Bool.false_eq_true, if_false, hconv, hdh]

theorem deep_dive_eq_chunks_err (env : Env) (s : DBState) (cid : Nat)
    (conv : Conversation) (dh : String) (ds : DocumentStore) (e : String)
    (hkey : pyFalsy env.serperApiKey = false)
    (hconv : findConv s.conversations cid = some conv)
    (hdh : conv.doc_hash = some dh)
    (hds : findDoc s.documents dh = some ds)
    (hpc : pageContents ds.chunks = Except.error e) :
    deep_dive env ⟨some cid⟩ s =
      ⟨ApiOut.jsonError 500 ("Analysis failed: " ++ e), s, noEffects,
        none⟩ := by
  simp only [deep_dive, hkey, Bool.false_eq_true, if_false, hconv, hdh, hds,
    hpc]

theorem deep_dive_eq_run (env : Env) (s : DBState) (cid : Nat)
    (conv : Conversation) (dh : String) (ds : DocumentStore)
    (contents : List String)
    (response_text : String) (queries : List String)
    (hkey : pyFalsy env.serperApiKey = false)
    (hconv : findConv s.conversations cid = some conv)
    (hdh : conv.doc_hash = some dh)
    (hds : findDoc s.documents dh = some ds)
    (hpc : pageContents ds.chunks = Except.ok contents)
    (hq : env.complete (deepDiveQueryPrompt (joinChunks contents))
      = .ok response_text)
    (hp : env.parseQueries response_text = some queries) :
    deep_dive env ⟨some cid⟩ s =
      match env.stream (deepDiveSynthesisPrompt (joinChunks contents)
          (deepDiveWebContext env queries)) with
      | .ok chunks =>
          ⟨.streamCompleted (deepDiveProgress queries ++
             chunks.filter (fun c => !c.isEmpty)),
           updateConv s conv.id (setHist
             (conv.chat_history ++
               [⟨"gemini", "user", "Deep Dive Analysis"⟩,
                ⟨"gemini", "model",
                  String.join (chunks.filter (fun c => !c.isEmpty))⟩])),
           { noEffects with completions := 1, searches := queries.length,
                            streamsStarted := 1 }, none⟩
      | .err emitted m =>
          ⟨.streamErrorChunk (deepDiveProgress queries ++
             emitted.filter (fun c => !c.isEmpty))
             ("A critical error occurred during Deep Dive. Error: " ++ m),
           s,
           { noEffects with completions := 1, searches := queries.length,
                            streamsStarted := 1 }, none⟩ := by
  simp only [deep_dive, hkey, Bool.false_eq_true, if_false, hconv, hdh, hds,
    hpc, hq, hp]

/-- On every document this application itself ingests the stored chunk rows
are non-empty plain strings, so even a fully configured deep dive fails
before any stream or backend call with the structured 500 AttributeError of
source line 623 — concretely checked here on `stateDoc`. -/
theorem deep_dive_pageContent_500 :
    deep_dive envA ⟨some 1⟩ stateDoc =
      ⟨ApiOut.jsonError 500 ("Analysis failed: " ++ pageContentError),
        stateDoc, noEffects, none⟩ := rfl

/-! Outcome-shape lemmas: every run of a streaming endpoint either fails
before the stream (structured JSON error, nothing persisted), fails
mid-stream (tutor and deep dive: a final in-band error chunk, no history
write; chat: the exception escapes, no history write), or completes and
appends exactly one full turn whose answer accumulates the whole emitted
stream. -/

theorem chat_shape (env : Env) (req : ChatRequest) (s : DBState) :
    (∃ code msg, (chat env req s).out = ApiOut.jsonError code msg ∧
      (chat env req s).state = s) ∨
    (∃ m, (chat env req s).out = ApiOut.streamEscaped [] m ∧
      (chat env req s).state = s) ∨
    (∃ cid q ch, (chat env req s).out = ApiOut.streamCompleted ch ∧
      histAt (chat env req s).state cid
        = histAt s cid ++ [⟨"langchain", q, String.join ch⟩] ∧
      ∀ cid2, cid2 ≠ cid →
        histAt (chat env req s).state cid2 = histAt s cid2) := by
  obtain ⟨cidO, msgO⟩ := req
  cases cidO with
  | none => exact Or.inl ⟨400, "Missing conversation_id or message", rfl, rfl⟩
  | some cid =>
    cases msgO with
    | none =>
      exact Or.inl ⟨400, "Missing conversation_id or message", rfl, rfl⟩
    | some msg =>
      by_cases hmsg : msg.isEmpty = true
      · exact Or.inl ⟨400, "Missing conversation_id or message",
          by simp [chat, hmsg], by simp [chat, hmsg]⟩
      · have hmsg2 : msg.isEmpty = false := by simpa using hmsg
        cases hconv : findConv s.conversations cid with
        | none =>
          exact Or.inl ⟨404, "Conversation not found",
            by simp [chat, hmsg2, hconv], by simp [chat, hmsg2, hconv]⟩
        | some conv =>
          cases hdh : conv.doc_hash with
          | none =>
            rw [chat_eq_plain env s cid msg conv hmsg2 hconv hdh]
            cases hc : env.complete msg with
            | ok response =>
              refine Or.inr (Or.inr ⟨cid, msg, [response], rfl, ?_, ?_⟩)
              · dsimp only
                rw [histAt_setHist_self s cid _ conv hconv,
                  histAt_of_findConv s cid conv hconv, join_single]
              · intro cid2 hne
                dsimp only
                exact histAt_setHist_other s cid cid2 _ hne
            | err m => exact Or.inr (Or.inl ⟨m, rfl, rfl⟩)
          | some dh =>
            cases hds : findDoc s.documents dh with
            | none =>
              exact Or.inl ⟨404, "Document data not found",
                by simp [chat, hmsg2, hconv, hdh, hds],
                by simp [chat, hmsg2, hconv, hdh, hds]⟩
            | some ds =>
              rw [chat_eq_doc env s cid msg conv dh ds hmsg2 hconv hdh hds]
              cases hc : env.docChain msg
                  (langchainHistoryFormat conv.chat_history) with
              | ok answer =>
                refine Or.inr (Or.inr ⟨cid, msg, [answer], rfl, ?_, ?_⟩)
                · dsimp only
                  rw [histAt_setHist_self s cid _ conv hconv,
                    histAt_of_findConv s cid conv hconv, join_single]
                · intro cid2 hne
                  dsimp only
                  exact histAt_setHist_other s cid cid2 _ hne
              | err m => exact Or.inr (Or.inl ⟨m, rfl, rfl⟩)

theorem tutor_shape (env : Env) (req : ChatRequest) (s : DBState) :
    (∃ code msg, (tutor env req s).out = ApiOut.jsonError code msg ∧
      ∀ cid2, histAt (tutor env req s).state cid2 = histAt s cid2) ∨
    (∃ ch m, (tutor env req s).out = ApiOut.streamErrorChunk ch
        ("I\x27m sorry, a critical error occurred. Error: " ++ m) ∧
      ∀ cid2, histAt (tutor env req s).state cid2 = histAt s cid2) ∨
    (∃ cid q ch, (tutor env req s).out = ApiOut.streamCompleted ch ∧
      histAt (tutor env req s).state cid
        = histAt s cid ++ [⟨"gemini", "user", q⟩,
            ⟨"gemini", "model", String.join ch⟩] ∧
      ∀ cid2, cid2 ≠ cid →
        histAt (tutor env req s).state cid2 = histAt s cid2) := by
  obtain ⟨cidO, msgO⟩ := req
  cases cidO with
  | none =>
    exact Or.inl ⟨400, "Missing conversation_id or message", rfl,
      fun _ => rfl⟩
  | some cid =>
    cases msgO with
    | none =>
      exact Or.inl ⟨400, "Missing conversation_id or message", rfl,
        fun _ => rfl⟩
    | some msg =>
      by_cases hmsg : msg.isEmpty = true
      · exact Or.inl ⟨400, "Missing conversation_id or message",
          by simp [tutor, hmsg], fun _ => by simp [tutor, hmsg]⟩
      · have hmsg2 : msg.isEmpty = false := by simpa using hmsg
        cases hconv : findConv s.conversations cid with
        | none =>
          exact Or.inl ⟨404, "Conversation or document not found",
            by simp [tutor, hmsg2, hconv],
            fun _ => by simp [tutor, hmsg2, hconv]⟩
        | some conv =>
          cases hdh : conv.doc_hash with
          | none =>
            rw [tutor_eq_nodoc env s cid msg conv hmsg2 hconv hdh]
            exact Or.inl ⟨404, "Conversation or document not found", rfl,
              fun _ => rfl⟩
          | some dh =>
            cases hds : findDoc s.documents dh with
            | none =>
              exact Or.inl ⟨404, "Document content not found",
                by simp [tutor, hmsg2, hconv, hdh, hds],
                fun _ => by simp [tutor, hmsg2, hconv, hdh, hds]⟩
            | some ds =>
              cases hfalsy : pyFalsy conv.tutor_curriculum with
              | false =>
                rw [tutor_eq_nogen env s cid msg conv dh ds hmsg2 hconv hdh
                  hds hfalsy]
                cases hst : env.stream (tutorPrompt
                    (!(conv.chat_history.any (fun it => it.tag == "gemini")))
                    (conv.tutor_curriculum.getD "")
                    (conv.chat_history.filter (fun it => it.tag == "gemini"))
                    (joinChunks ds.chunks) msg) with
                | ok chunks =>
                  refine Or.inr (Or.inr ⟨cid, msg,
                    chunks.filter (fun c => !c.isEmpty), rfl, ?_, ?_⟩)
                  · dsimp only
                    rw [histAt_setHist_self s cid _ conv hconv,
                      histAt_of_findConv s cid conv hconv]
                  · intro cid2 hne
                    dsimp only
                    exact histAt_setHist_other s cid cid2 _ hne
                | err emitted m =>
                  exact Or.inr (Or.inl ⟨_, m, rfl, fun _ => rfl⟩)
              | true =>
                cases hcomp : env.complete
                    (curriculumPrompt (joinChunks ds.chunks)) with
                | err m =>
                  rw [tutor_eq_gen_err env s cid msg conv dh ds m hmsg2 hconv
                    hdh hds hfalsy hcomp]
                  exact Or.inl ⟨500, "Analysis failed: " ++ m, rfl,
                    fun _ => rfl⟩
                | ok currText =>
                  rw [tutor_eq_gen_ok env s cid msg conv dh ds currText hmsg2
                    hconv hdh hds hfalsy hcomp]
                  cases hst : env.stream (tutorPrompt
                      (!(conv.chat_history.any
                        (fun it => it.tag == "gemini")))
                      currText
                      (conv.chat_history.filter
                        (fun it => it.tag == "gemini"))
                      (joinChunks ds.chunks) msg) with
                  | ok chunks =>
                    refine Or.inr (Or.inr ⟨cid, msg,
                      chunks.filter (fun c => !c.isEmpty), rfl, ?_, ?_⟩)
                    · dsimp only
                      rw [histAt_setHist_self _ cid _ (setCurr currText conv)
                        (findConv_setCurr_self s cid currText conv hconv),
                        histAt_of_findConv s cid conv hconv]
                    · intro cid2 hne
                      dsimp only
                      rw [histAt_setHist_other _ cid cid2 _ hne]
                      exact histAt_setCurr s cid currText cid2
                  | err emitted m =>
                    refine Or.inr (Or.inl ⟨_, m, rfl, fun cid2 => ?_⟩)
                    dsimp only
                    exact histAt_setCurr s cid currText cid2

theorem deep_dive_shape (env : Env) (req : DeepDiveRequest) (s : DBState) :
    (∃ code msg, (deep_dive env req s).out = ApiOut.jsonError code msg ∧
      (deep_dive env req s).state = s) ∨
    (∃ ch m, (deep_dive env req s).out = ApiOut.streamErrorChunk ch
        ("A critical error occurred during Deep Dive. Error: " ++ m) ∧
      (deep_dive env req s).state = s) ∨
    (∃ cid ch k, (deep_dive env req s).out = ApiOut.streamCompleted ch ∧
      k ≤ ch.length ∧
      histAt (deep_dive env req s).state cid
        = histAt s cid ++ [⟨"gemini", "user", "Deep Dive Analysis"⟩,
            ⟨"gemini", "model", String.join (ch.drop k)⟩] ∧
      ∀ cid2, cid2 ≠ cid →
        histAt (deep_dive env req s).state cid2 = histAt s cid2) := by
  cases hkey : pyFalsy env.serperApiKey with
  | true =>
    exact Or.inl ⟨500, "Serper API key not configured",
      by simp [deep_dive, hkey], by simp [deep_dive, hkey]⟩
  | false =>
    obtain ⟨cidO⟩ := req
    cases cidO with
    | none =>
      exact Or.inl ⟨400, "A document must be associated for a Deep Dive.",
        by simp [deep_dive, hkey], by simp [deep_dive, hkey]⟩
    | some cid =>
      cases hconv : findConv s.conversations cid with
      | none =>
        exact Or.inl ⟨400, "A document must be associated for a Deep Dive.",
          by simp [deep_dive, hkey, hconv], by simp [deep_dive, hkey, hconv]⟩
      | some conv =>
        have hcid : conv.id = cid := findConv_id_eq hconv
        cases hdh : conv.doc_hash with
        | none =>
          rw [deep_dive_eq_nodoc env s cid conv hkey hconv hdh]
          exact Or.inl ⟨400, "A document must be associated for a Deep Dive.",
            rfl, rfl⟩
        | some dh =>
          cases hds : findDoc s.documents dh with
          | none =>
            exact Or.inl ⟨404, "Document content not found.",
              by simp [deep_dive, hkey, hconv, hdh, hds],
              by simp [deep_dive, hkey, hconv, hdh, hds]⟩
          | some ds =>
            cases hpc : pageContents ds.chunks with
            | error e =>
              rw [deep_dive_eq_chunks_err env s cid conv dh ds e hkey hconv
                hdh hds hpc]
              exact Or.inl ⟨500, "Analysis failed: " ++ e, rfl, rfl⟩
            | ok contents =>
            cases hq : env.complete
                (deepDiveQueryPrompt (joinChunks contents)) with
            | err m =>
              exact Or.inr (Or.inl ⟨[], m,
                by simp [deep_dive, hkey, hconv, hdh, hds, hpc, hq],
                by simp [deep_dive, hkey, hconv, hdh, hds, hpc, hq]⟩)
            | ok response_text =>
              cases hp : env.parseQueries response_text with
              | none =>
                exact Or.inr (Or.inl
                  ⟨[], "AI failed to generate search queries.",
                  by simp [deep_dive, hkey, hconv, hdh, hds, hpc, hq, hp],
                  by simp [deep_dive, hkey, hconv, hdh, hds, hpc, hq, hp]⟩)
              | some queries =>
                rw [deep_dive_eq_run env s cid conv dh ds contents
                  response_text queries hkey hconv hdh hds hpc hq hp]
                cases hst : env.stream (deepDiveSynthesisPrompt
                    (joinChunks contents)
                    (deepDiveWebContext env queries)) with
                | ok chunks =>
                  refine Or.inr (Or.inr ⟨cid,
                    deepDiveProgress queries ++
                      chunks.filter (fun c => !c.isEmpty),
                    (deepDiveProgress queries).length, rfl, ?_, ?_, ?_⟩)
                  · simp [List.length_append]
                  · dsimp only
                    rw [hcid, histAt_setHist_self s cid _ conv hconv,
                      histAt_of_findConv s cid conv hconv,
                      List.drop_left]
                  · intro cid2 hne
                    dsimp only
                    rw [hcid]
                    exact histAt_setHist_other s cid cid2 _ hne
                | err emitted m =>
                  exact Or.inr (Or.inl ⟨_, m, rfl, rfl⟩)

theorem currMap_setHist (s : DBState) (cid : Nat) (newHist : List HistoryEntry)
    (cid2 : Nat) :
    (findConv (updateConv s cid (setHist newHist)).conversations cid2).map
      Conversation.tutor_curriculum
    = (findConv s.conversations cid2).map Conversation.tutor_curriculum := by
  rw [findConv_updateConv s cid cid2 (setHist newHist) (fun _ => rfl)]
  cases findConv s.conversations cid2 with
  | none => rfl
  | some c =>
    by_cases h : c.id = cid
    · simp [h, setHist]
    · simp [h]

theorem langchainHistoryFormat_gemini (hist : List HistoryEntry) :
    langchainHistoryFormat (hist.filter (fun it => it.tag == "gemini"))
      = [] := by
  unfold langchainHistoryFormat
  rw [List.map_eq_nil_iff, List.filter_filter, List.filter_eq_nil_iff]
  intro a _
  by_cases h : a.tag = "gemini" <;> simp [h]

/-- C2: for every turn served by any streaming mode (plain chat and document
Q&A via `chat`, tutor, deep dive), the conversation history either gains the
one complete turn — user message together with the full accumulated answer,
which is the concatenation of the entire emitted stream (for deep dive, of
its synthesis tail after the progress notifications) — or gains nothing: any
outcome other than a completed stream leaves every history unchanged, so
history length only grows and no question is ever recorded without its
answer.  (For deep dive, this includes the line-623 AttributeError a
non-empty stored chunk list raises: it surfaces as a pre-stream structured
error, on the gains-nothing side.) -/
theorem kortex_C2 (env : Env) (s : DBState) (creq : ChatRequest)
    (treq : ChatRequest) (dreq : DeepDiveRequest) :
    ((∀ ch, (chat env creq s).out = ApiOut.streamCompleted ch →
      ∃ cid q, histAt (chat env creq s).state cid
          = histAt s cid ++ [⟨"langchain", q, String.join ch⟩] ∧
        ∀ cid2, cid2 ≠ cid →
          histAt (chat env creq s).state cid2 = histAt s cid2) ∧
    ((∀ ch, (chat env creq s).out ≠ ApiOut.streamCompleted ch) →
      ∀ cid2, histAt (chat env creq s).state cid2 = histAt s cid2) ∧
    (∀ cid2, (histAt s cid2).length
      ≤ (histAt (chat env creq s).state cid2).length)) ∧
    ((∀ ch, (tutor env treq s).out = ApiOut.streamCompleted ch →
      ∃ cid q, histAt (tutor env treq s).state cid
          = histAt s cid ++ [⟨"gemini", "user", q⟩,
              ⟨"gemini", "model", String.join ch⟩] ∧
        ∀ cid2, cid2 ≠ cid →
          histAt (tutor env treq s).state cid2 = histAt s cid2) ∧
    ((∀ ch, (tutor env treq s).out ≠ ApiOut.streamCompleted ch) →
      ∀ cid2, histAt (tutor env treq s).state cid2 = histAt s cid2) ∧
    (∀ cid2, (histAt s cid2).length
      ≤ (histAt (tutor env treq s).state cid2).length)) ∧
    ((∀ ch, (deep_dive env dreq s).out = ApiOut.streamCompleted ch →
      ∃ cid k, k ≤ ch.length ∧
        histAt (deep_dive env dreq s).state cid
          = histAt s cid ++ [⟨"gemini", "user", "Deep Dive Analysis"⟩,
              ⟨"gemini", "model", String.join (ch.drop k)⟩] ∧
        ∀ cid2, cid2 ≠ cid →
          histAt (deep_dive env dreq s).state cid2 = histAt s cid2) ∧
    ((∀ ch, (deep_dive env dreq s).out ≠ ApiOut.streamCompleted ch) →
      ∀ cid2, histAt (deep_dive env dreq s).state cid2 = histAt s cid2) ∧
    (∀ cid2, (histAt s cid2).length
      ≤ (histAt (deep_dive env dreq s).state cid2).length)) := by
  refine ⟨⟨?_, ?_, ?_⟩, ⟨?_, ?_, ?_⟩, ⟨?_, ?_, ?_⟩⟩
  · intro ch hch
    rcases chat_shape env creq s with ⟨code, m, hout, _⟩ | ⟨m, hout, _⟩ |
      ⟨cid, q, ch2, hout, h1, h2⟩
    · exact absurd (hout.symm.trans hch) (by simp)
    · exact absurd (hout.symm.trans hch) (by simp)
    · have hcc : ch2 = ch := by simpa using hout.symm.trans hch
      subst hcc
      exact ⟨cid, q, h1, h2⟩
  · intro hnc cid2
    rcases chat_shape env creq s with ⟨code, m, hout, hstate⟩ |
      ⟨m, hout, hstate⟩ | ⟨cid, q, ch2, hout, h1, h2⟩
    · rw [hstate]
    · rw [hstate]
    · exact absurd hout (hnc ch2)
  · intro cid2
    rcases chat_shape env creq s with ⟨code, m, hout, hstate⟩ |
      ⟨m, hout, hstate⟩ | ⟨cid, q, ch2, hout, h1, h2⟩
    · rw [hstate]
    · rw [hstate]
    · by_cases he : cid2 = cid
      · subst he
        rw [h1]
        simp
      · rw [h2 cid2 he]
  · intro ch hch
    rcases tutor_shape env treq s with ⟨code, m, hout, _⟩ |
      ⟨ch1, m, hout, _⟩ | ⟨cid, q, ch2, hout, h1, h2⟩
    · exact absurd (hout.symm.trans hch) (by simp)
    · exact absurd (hout.symm.trans hch) (by simp)
    · have hcc : ch2 = ch := by simpa using hout.symm.trans hch
      subst hcc
      exact ⟨cid, q, h1, h2⟩
  · intro hnc cid2
    rcases tutor_shape env treq s with ⟨code, m, hout, hstate⟩ |
      ⟨ch1, m, hout, hstate⟩ | ⟨cid, q, ch2, hout, h1, h2⟩
    · rw [hstate cid2]
    · rw [hstate cid2]
    · exact absurd hout (hnc ch2)
  · intro cid2
    rcases tutor_shape env treq s with ⟨code, m, hout, hstate⟩ |
      ⟨ch1, m, hout, hstate⟩ | ⟨cid, q, ch2, hout, h1, h2⟩
    · rw [hstate cid2]
    · rw [hstate cid2]
    · by_cases he : cid2 = cid
      · subst he
        rw [h1]
        simp
      · rw [h2 cid2 he]
  · intro ch hch
    rcases deep_dive_shape env dreq s with ⟨code, m, hout, _⟩ |
      ⟨ch1, m, hout, _⟩ | ⟨cid, ch2, k, hout, hk, h1, h2⟩
    · exact absurd (hout.symm.trans hch) (by simp)
    · exact absurd (hout.symm.trans hch) (by simp)
    · have hcc : ch2 = ch := by simpa using hout.symm.trans hch
      subst hcc
      exact ⟨cid, k, hk, h1, h2⟩
  · intro hnc cid2
    rcases deep_dive_shape env dreq s with ⟨code, m, hout, hstate⟩ |
      ⟨ch1, m, hout, hstate⟩ | ⟨cid, ch2, k, hout, hk, h1, h2⟩
    · rw [hstate]
    · rw [hstate]
    · exact absurd hout (hnc ch2)
  · intro cid2
    rcases deep_dive_shape env dreq s with ⟨code, m, hout, hstate⟩ |
      ⟨ch1, m, hout, hstate⟩ | ⟨cid, ch2, k, hout, hk, h1, h2⟩
    · rw [hstate]
    · rw [hstate]
    · by_cases he : cid2 = cid
      · subst he
        rw [h1]
        simp
      · rw [h2 cid2 he]

/-- C2 witness: on a concrete benign run of plain chat, the completed-stream
clause of the atomic-persistence theorem yields the appended full turn. -/
theorem kortex_C2_witness :
    (chat envA ⟨some 1, some "hi"⟩ statePlain).out
      = ApiOut.streamCompleted ["CURR"] ∧
    (∃ cid q, histAt (chat envA ⟨some 1, some "hi"⟩ statePlain).state cid
        = histAt statePlain cid
          ++ [⟨"langchain", q, String.join ["CURR"]⟩] ∧
      ∀ cid2, cid2 ≠ cid →
        histAt (chat envA ⟨some 1, some "hi"⟩ statePlain).state cid2
          = histAt statePlain cid2) :=
  ⟨rfl, (kortex_C2 envA statePlain ⟨some 1, some "hi"⟩ ⟨some 1, some "hi"⟩
    ⟨some 1⟩).1.1 ["CURR"] rfl⟩

/-- C3 counterexample: in plain-chat mode a generation exception is not
caught inside the generator and not converted into a final error-text chunk;
it escapes the generator (the stream just breaks off), refuting the claim
that every streaming mode surfaces mid-stream exceptions as an in-band error
chunk. -/
theorem kortex_C3_cx :
    (chat envFail ⟨some 1, some "hi"⟩ statePlain).out
      = ApiOut.streamEscaped [] "boom" := rfl

/-- C3 amended: the tutor and deep-dive generators catch any mid-stream
exception and surface it as a final human-readable error chunk (with their
fixed message prefixes) and never let one escape (a deep-dive run that stops
earlier — including the line-623 AttributeError on stored string chunks —
fails as a structured pre-stream JSON error, not an escape); the plain-chat
and document Q&A generators never produce an error chunk, and a backend
exception in either branch escapes the generator unhandled. -/
theorem kortex_C3 (env : Env) (s : DBState) (creq : ChatRequest)
    (treq : ChatRequest) (dreq : DeepDiveRequest) :
    (∀ ch m, (tutor env treq s).out ≠ ApiOut.streamEscaped ch m) ∧
    (∀ ch e, (tutor env treq s).out = ApiOut.streamErrorChunk ch e →
      ∃ m, e = "I\x27m sorry, a critical error occurred. Error: " ++ m) ∧
    (∀ ch m, (deep_dive env dreq s).out ≠ ApiOut.streamEscaped ch m) ∧
    (∀ ch e, (deep_dive env dreq s).out = ApiOut.streamErrorChunk ch e →
      ∃ m, e = "A critical error occurred during Deep Dive. Error: " ++ m) ∧
    (∀ ch e, (chat env creq s).out ≠ ApiOut.streamErrorChunk ch e) ∧
    (∀ cid msg conv m, creq = ⟨some cid, some msg⟩ → msg.isEmpty = false →
      findConv s.conversations cid = some conv → conv.doc_hash = none →
      env.complete msg = GenResult.err m →
      (chat env creq s).out = ApiOut.streamEscaped [] m) ∧
    (∀ cid msg conv dh ds m, creq = ⟨some cid, some msg⟩ →
      msg.isEmpty = false →
      findConv s.conversations cid = some conv → conv.doc_hash = some dh →
      findDoc s.documents dh = some ds →
      env.docChain msg (langchainHistoryFormat conv.chat_history)
        = GenResult.err m →
      (chat env creq s).out = ApiOut.streamEscaped [] m) := by
  refine ⟨?_, ?_, ?_, ?_, ?_, ?_, ?_⟩
  · intro ch m h
    rcases tutor_shape env treq s with ⟨c1, m1, hout, _⟩ |
      ⟨ch1, m1, hout, _⟩ | ⟨c1, q1, ch1, hout, _, _⟩ <;>
      exact absurd (hout.symm.trans h) (by simp)
  · intro ch e h
    rcases tutor_shape env treq s with ⟨c1, m1, hout, _⟩ |
      ⟨ch1, m1, hout, _⟩ | ⟨c1, q1, ch1, hout, _, _⟩
    · exact absurd (hout.symm.trans h) (by simp)
    · have hinj := hout.symm.trans h
      simp only [ApiOut.streamErrorChunk.injEq] at hinj
      exact ⟨m1, hinj.2.symm⟩
    · exact absurd (hout.symm.trans h) (by simp)
  · intro ch m h
    rcases deep_dive_shape env dreq s with ⟨c1, m1, hout, _⟩ |
      ⟨ch1, m1, hout, _⟩ | ⟨c1, ch1, k1, hout, _, _, _⟩ <;>
      exact absurd (hout.symm.trans h) (by simp)
  · intro ch e h
    rcases deep_dive_shape env dreq s with ⟨c1, m1, hout, _⟩ |
      ⟨ch1, m1, hout, _⟩ | ⟨c1, ch1, k1, hout, _, _, _⟩
    · exact absurd (hout.symm.trans h) (by simp)
    · have hinj := hout.symm.trans h
      simp only [ApiOut.streamErrorChunk.injEq] at hinj
      exact ⟨m1, hinj.2.symm⟩
    · exact absurd (hout.symm.trans h) (by simp)
  · intro ch e h
    rcases chat_shape env creq s with ⟨c1, m1, hout, _⟩ | ⟨m1, hout, _⟩ |
      ⟨c1, q1, ch1, hout, _, _⟩ <;>
      exact absurd (hout.symm.trans h) (by simp)
  · intro cid msg conv m hreq hmsg hconv hdh hcm
    subst hreq
    rw [chat_eq_plain env s cid msg conv hmsg hconv hdh, hcm]
  · intro cid msg conv dh ds m hreq hmsg hconv hdh hds hcm
    subst hreq
    rw [chat_eq_doc env s cid msg conv dh ds hmsg hconv hdh hds, hcm]

/-- C3 witness: on a concrete failing tutor run, the amended theorem
exhibits the in-band error chunk carrying the fixed prefix. -/
theorem kortex_C3_witness :
    ∃ m, ("I\x27m sorry, a critical error occurred. Error: " ++ "boom")
      = "I\x27m sorry, a critical error occurred. Error: " ++ m :=
  (kortex_C3 envFail stateDoc ⟨some 1, some "go"⟩ ⟨some 1, some "go"⟩
    ⟨some 1⟩).2.1 []
    ("I\x27m sorry, a critical error occurred. Error: " ++ "boom") rfl

/-- C4 counterexample: a stored curriculum equal to the empty string is
non-null, yet the source guard `if not conv.tutor_curriculum` treats it as
absent, so invoking the tutor flow re-invokes curriculum generation once and
overwrites the stored curriculum — refuting "generation is attempted only
when the field is null" as stated. -/
theorem kortex_C4_cx :
    (tutor envA ⟨some 1, some "go"⟩ stateEmptyCurr).effects.curriculumGens
      = 1 ∧
    (findConv (tutor envA ⟨some 1, some "go"⟩
        stateEmptyCurr).state.conversations 1).map
      Conversation.tutor_curriculum = some (some "CURR") := ⟨rfl, rfl⟩

/-- C4 amended: curriculum generation happens at most once per conversation
in the sense of Python truthiness: whenever the stored curriculum is non-null
and non-empty, invoking the tutor flow performs no curriculum-generation call
and leaves the stored curriculum of every conversation unchanged (generation is
attempted only when the field is null or the empty string). -/
theorem kortex_C4 (env : Env) (req : ChatRequest) (s : DBState) (cid : Nat)
    (conv : Conversation) (c : String)
    (hreq : req.conversation_id = some cid)
    (hconv : findConv s.conversations cid = some conv)
    (hcur : conv.tutor_curriculum = some c)
    (hne : c.isEmpty = false) :
    (tutor env req s).effects.curriculumGens = 0 ∧
    ∀ cid2, (findConv (tutor env req s).state.conversations cid2).map
        Conversation.tutor_curriculum
      = (findConv s.conversations cid2).map
          Conversation.tutor_curriculum := by
  obtain ⟨cidO, msgO⟩ := req
  simp only at hreq
  subst hreq
  have hfalsy : pyFalsy conv.tutor_curriculum = false := by
    rw [hcur]
    simpa [pyFalsy] using hne
  cases msgO with
  | none => exact ⟨rfl, fun _ => rfl⟩
  | some msg =>
    by_cases hmsg : msg.isEmpty = true
    · have heq : (tutor env ⟨some cid, some msg⟩ s).effects = noEffects := by
        simp [tutor, hmsg]
      have hstate : (tutor env ⟨some cid, some msg⟩ s).state = s := by
        simp [tutor, hmsg]
      exact ⟨by rw [heq]; rfl, fun cid2 => by rw [hstate]⟩
    · have hmsg2 : msg.isEmpty = false := by simpa using hmsg
      cases hdh : conv.doc_hash with
      | none =>
        rw [tutor_eq_nodoc env s cid msg conv hmsg2 hconv hdh]
        exact ⟨rfl, fun _ => rfl⟩
      | some dh =>
        cases hds : findDoc s.documents dh with
        | none =>
          have heq : (tutor env ⟨some cid, some msg⟩ s).effects
              = noEffects := by
            simp [tutor, hmsg2, hconv, hdh, hds]
          have hstate : (tutor env ⟨some cid, some msg⟩ s).state = s := by
            simp [tutor, hmsg2, hconv, hdh, hds]
          exact ⟨by rw [heq]; rfl, fun cid2 => by rw [hstate]⟩
        | some ds =>
          rw [tutor_eq_nogen env s cid msg conv dh ds hmsg2 hconv hdh hds
            hfalsy]
          cases hst : env.stream (tutorPrompt
              (!(conv.chat_history.any (fun it => it.tag == "gemini")))
              (conv.tutor_curriculum.getD "")
              (conv.chat_history.filter (fun it => it.tag == "gemini"))
              (joinChunks ds.chunks) msg) with
          | ok chunks =>
            refine ⟨rfl, fun cid2 => ?_⟩
            dsimp only
            exact currMap_setHist s cid _ cid2
          | err emitted m => exact ⟨rfl, fun _ => rfl⟩

/-- C4 witness: on a conversation with the non-empty stored curriculum
`"PLAN"`, a concrete tutor invocation performs zero curriculum generations
and leaves the stored curriculum at `"PLAN"`. -/
theorem kortex_C4_witness :
    (tutor envA ⟨some 1, some "go"⟩ stateDoc).effects.curriculumGens = 0 ∧
    (findConv (tutor envA ⟨some 1, some "go"⟩ stateDoc).state.conversations
        1).map Conversation.tutor_curriculum = some (some "PLAN") :=
  ⟨(kortex_C4 envA ⟨some 1, some "go"⟩ stateDoc 1 convDoc "PLAN" rfl rfl rfl
      rfl).1,
   ((kortex_C4 envA ⟨some 1, some "go"⟩ stateDoc 1 convDoc "PLAN" rfl rfl rfl
      rfl).2 1).trans rfl⟩

/-- C6 counterexample: the document Q&A orchestrator does not replay history
turns from both channels: on a conversation whose history holds one
assisted-channel (role-tagged `gemini`) turn pair, the retrieval chain is
invoked with an empty memory — the two prior entries are filtered out, so
"replays all prior history turns from both channels" fails as stated. -/
theorem kortex_C6_cx :
    (chat envA ⟨some 1, some "hi"⟩ stateDoc).effects.chainCalls
      = [("hi", [])] ∧
    (histAt stateDoc 1).length = 2 := ⟨rfl, rfl⟩

/-- C6 amended: when assembling conversational memory for a document Q&A
turn, the orchestrator replays exactly the channel-tagged `langchain`
(user message, answer) pairs of the stored history, in order; role-tagged
`gemini` entries are tolerated when reading history back (the read never
fails on them) but are skipped, contributing nothing to the replayed
memory. -/
theorem kortex_C6 (env : Env) (s : DBState) (cid : Nat) (msg : String)
    (conv : Conversation) (dh : String) (ds : DocumentStore)
    (hmsg : msg.isEmpty = false)
    (hconv : findConv s.conversations cid = some conv)
    (hdh : conv.doc_hash = some dh)
    (hds : findDoc s.documents dh = some ds) :
    (chat env ⟨some cid, some msg⟩ s).effects.chainCalls
      = [(msg, (conv.chat_history.filter
          (fun it => it.tag == "langchain")).map
          (fun it => (it.item1, it.item2)))] ∧
    ∀ hist : List HistoryEntry,
      langchainHistoryFormat (hist.filter (fun it => it.tag == "gemini"))
        = [] := by
  constructor
  · rw [chat_eq_doc env s cid msg conv dh ds hmsg hconv hdh hds]
    cases env.docChain msg (langchainHistoryFormat conv.chat_history) <;> rfl
  · exact langchainHistoryFormat_gemini

/-- C6 witness: a concrete document Q&A turn over a history holding both a
plain-channel triple and an assisted-channel pair replays exactly the one
plain-channel pair. -/
theorem kortex_C6_witness :
    (chat envA ⟨some 1, some "hi"⟩ stateDoc).effects.chainCalls
      = [("hi", (convDoc.chat_history.filter
          (fun it => it.tag == "langchain")).map
          (fun it => (it.item1, it.item2)))] :=
  (kortex_C6 envA stateDoc 1 "hi" convDoc "h" docA rfl rfl rfl rfl).1

/-- C7 counterexample: invoking deep dive on a conversation with no bound
document while the search provider is unconfigured yields the 500
SearchUnavailable error, not a not-found/bad-request (4xx) error — so the
claim that such invocations always return a not-found/bad-request error
fails as stated (though there is still no crash, no generation and no state
change). -/
theorem kortex_C7_cx :
    (deep_dive envNoKey ⟨some 1⟩ statePlain).out
      = ApiOut.jsonError 500 "Serper API key not configured" ∧
    isClientError (deep_dive envNoKey ⟨some 1⟩ statePlain).out = false ∧
    (deep_dive envNoKey ⟨some 1⟩ statePlain).state = statePlain :=
  ⟨rfl, rfl, rfl⟩

/-- C7 amended: invoking tutor on a conversation with no bound document
always returns the structured 404 error with no external work and no state
change; invoking deep dive on such a conversation returns the structured 400
error when the search provider is configured, and the structured 500
SearchUnavailable error when it is not — in every case a structured error
with no generation, no search, no history mutation, never a crash and never
a served turn. -/
theorem kortex_C7 (env : Env) (s : DBState) (cid : Nat) (msg : String)
    (conv : Conversation)
    (hmsg : msg.isEmpty = false)
    (hconv : findConv s.conversations cid = some conv)
    (hdoc : conv.doc_hash = none) :
    tutor env ⟨some cid, some msg⟩ s =
      ⟨ApiOut.jsonError 404 "Conversation or document not found", s,
        noEffects, none⟩ ∧
    (pyFalsy env.serperApiKey = false →
      deep_dive env ⟨some cid⟩ s =
        ⟨ApiOut.jsonError 400
          "A document must be associated for a Deep Dive.", s, noEffects,
          none⟩) ∧
    (pyFalsy env.serperApiKey = true →
      deep_dive env ⟨some cid⟩ s =
        ⟨ApiOut.jsonError 500 "Serper API key not configured", s, noEffects,
          none⟩) := by
  refine ⟨tutor_eq_nodoc env s cid msg conv hmsg hconv hdoc, ?_, ?_⟩
  · intro hkey
    exact deep_dive_eq_nodoc env s cid conv hkey hconv hdoc
  · intro hkey
    unfold deep_dive
    rw [hkey]
    rfl

/-- C7 witness: concrete no-document tutor and deep-dive invocations produce
the structured 404 and 400 errors with the state untouched. -/
theorem kortex_C7_witness :
    tutor envA ⟨some 1, some "go"⟩ statePlain =
      ⟨ApiOut.jsonError 404 "Conversation or document not found", statePlain,
        noEffects, none⟩ ∧
    deep_dive envA ⟨some 1⟩ statePlain =
      ⟨ApiOut.jsonError 400 "A document must be associated for a Deep Dive.",
        statePlain, noEffects, none⟩ :=
  ⟨(kortex_C7 envA statePlain 1 "go" convPlain rfl rfl rfl).1,
   (kortex_C7 envA statePlain 1 "go" convPlain rfl rfl rfl).2.1 rfl⟩

/-- C8 witness: a concrete deep-dive request with the key unset fails with
the SearchUnavailable error before any work, state unchanged. -/
theorem kortex_C8_witness :
    deep_dive envNoKey ⟨some 1⟩ stateDoc =
      ⟨ApiOut.jsonError 500 "Serper API key not configured", stateDoc,
        noEffects, none⟩ :=
  kortex_C8 envNoKey ⟨some 1⟩ stateDoc rfl

/-- C5 witness: a concrete upload whose extracted text is 10 characters
fails with the ExtractionEmpty bad request and creates nothing. -/
theorem kortex_C5_witness :
    upload envShort ⟨some ("f.pdf", [1, 2]), none⟩ statePlain =
      ⟨ApiOut.jsonError 400
        "This document contains no readable text or is too short to analyze.",
        statePlain, { noEffects with extractions := 1 }, some "g"⟩ :=
  kortex_C5 envShort ⟨some ("f.pdf", [1, 2]), none⟩ statePlain "f.pdf" [1, 2]
    rfl rfl rfl (by decide)

/-- C9 witness: a concrete re-upload into the existing conversation rebinds
its document hash and title and only those fields. -/
theorem kortex_C9_witness :
    1 = convDoc.id ∧
    findConv (upload envA ⟨some ("f.pdf", [9]), some 1⟩
        stateDoc).state.conversations 1 =
      some { convDoc with doc_hash := some (envA.md5 [9]),
                          title := "f.pdf" } :=
  ⟨(kortex_C9 envA ⟨some ("f.pdf", [9]), some 1⟩ stateDoc "f.pdf" [9] 1
      convDoc rfl rfl rfl 1 rfl).1,
   (kortex_C9 envA ⟨some ("f.pdf", [9]), some 1⟩ stateDoc "f.pdf" [9] 1
      convDoc rfl rfl rfl 1 rfl).2.1⟩

/-- C10 witness: a concrete upload with no conversation header creates a
fresh conversation titled with the filename, bound to the digest, with empty
history and null curriculum, and returns its id. -/
theorem kortex_C10_witness :
    (upload envA ⟨some ("f.pdf", [9]), none⟩ stateDoc).out
      = ApiOut.jsonOk stateDoc.nextId ∧
    findConv (upload envA ⟨some ("f.pdf", [9]), none⟩
        stateDoc).state.conversations stateDoc.nextId =
      some ⟨stateDoc.nextId, "f.pdf", stateDoc.now, some (envA.md5 [9]), [],
        none⟩ :=
  kortex_C10 envA ⟨some ("f.pdf", [9]), none⟩ stateDoc "f.pdf" [9] rfl rfl
    (Or.inl rfl) (by decide) (Or.inl ⟨docA, rfl⟩)

/-- C1 witness: a concrete double upload of the same bytes: the second run
does no extraction, chunking or index build, returns the same digest, leaves
the document store as the first run left it, and the store holds exactly one
record under that digest. -/
theorem kortex_C1_witness :
    (∃ cid2, (upload envA ⟨some ("f.pdf", [9]), none⟩
        (upload envA ⟨some ("f.pdf", [9]), none⟩ stateDoc).state).out
      = ApiOut.jsonOk cid2) ∧
    (upload envA ⟨some ("f.pdf", [9]), none⟩
      (upload envA ⟨some ("f.pdf", [9]), none⟩
        stateDoc).state).effects.extractions = 0 ∧
    (upload envA ⟨some ("f.pdf", [9]), none⟩
      (upload envA ⟨some ("f.pdf", [9]), none⟩
        stateDoc).state).effects.chunkings = 0 ∧
    (upload envA ⟨some ("f.pdf", [9]), none⟩
      (upload envA ⟨some ("f.pdf", [9]), none⟩
        stateDoc).state).effects.indexBuilds = 0 ∧
    (upload envA ⟨some ("f.pdf", [9]), none⟩
      (upload envA ⟨some ("f.pdf", [9]), none⟩ stateDoc).state).docHash
      = (upload envA ⟨some ("f.pdf", [9]), none⟩ stateDoc).docHash ∧
    (upload envA ⟨some ("f.pdf", [9]), none⟩ stateDoc).docHash
      = some (envA.md5 [9]) ∧
    ((upload envA ⟨some ("f.pdf", [9]), none⟩
      (upload envA ⟨some ("f.pdf", [9]), none⟩
        stateDoc).state).state.documents
      = (upload envA ⟨some ("f.pdf", [9]), none⟩ stateDoc).state.documents) ∧
    (upload envA ⟨some ("f.pdf", [9]), none⟩ stateDoc).state.documents.countP
      (fun d => d.doc_hash == envA.md5 [9]) = 1 :=
  kortex_C1 envA ⟨some ("f.pdf", [9]), none⟩ stateDoc "f.pdf" [9] rfl
    (by decide) 2 rfl

end Kortex
